import Mathlib

/-!
# Channel Sounding negotiation state machine (src/shared/rap_hci.c)

A shallow embedding of the per-link CS state machine, its event handlers and
the LE Meta subevent demultiplexer.

Conventions of the embedding.

* A pointer to a context (`struct cs_state_machine_t *`, also when it travels
  as `void *user_data`) is an `Option cs_state_machine_t`: `none` is `NULL`,
  `some s` is a valid pointer whose pointee currently holds `s`.  A function
  that writes through the pointer returns the pointee afterwards.
* A pointer to event bytes (`const uint8_t *data`) is the memory seen from that
  pointer, a function from byte offset to the value stored there; reading a
  `uint8_t` reduces the value modulo 256.  The byte count travels separately,
  exactly as the `size` argument does in the source, so a read past `size` is a
  read of whatever memory follows the event.
* Every `DBG(...)`, `error(...)`, `bt_hci_send(...)` and `bt_hci_register(...)`
  call of the source is one entry of the output trace `Res.out`, in program order.
* A dereference of `NULL` is a fault: the function returns `none`.
-/

namespace RapHci

/-- The CS states, `enum cs_state_t`, in declaration order. -/
inductive cs_state_t
  | CS_INIT
  | CS_STOPPED
  | CS_STARTED
  | CS_WAIT_SEC_CMPLT
  | CS_WAIT_CONFIG_CMPLT
  | CS_WAIT_PROC_CMPLT
  | CS_HOLD
  | CS_UNSPECIFIED
deriving DecidableEq, Repr

open cs_state_t

/-- The state machine context, `struct cs_state_machine_t`.  The transport
pointer `hci` is kept as an address. -/
structure cs_state_machine_t where
  current_state : cs_state_t
  hci : Nat
  initiator : Bool
  procedure_active : Bool
deriving DecidableEq, Repr

/-- The parameter block `struct hci_cp_le_cs_set_default_settings`, with the four
fields that `rap_send_hci_def_settings_command` assigns after zeroing it. -/
structure hci_cp_le_cs_set_default_settings where
  handle : Nat
  role_enable : Nat
  cs_sync_ant_sel : Nat
  max_tx_power : Nat
deriving DecidableEq, Repr

/-- The fields `btd_opts.bcs.role`, `btd_opts.bcs.cs_sync_ant_sel` and
`btd_opts.bcs.max_tx_power` read by `rap_send_hci_def_settings_command`. -/
structure btd_opts_bcs where
  role : Nat
  cs_sync_ant_sel : Nat
  max_tx_power : Nat
deriving DecidableEq, Repr

/-- The fields of `struct hci_evt_le_cs_read_rmt_supp_cap_complete` that the
source reads. -/
structure hci_evt_le_cs_read_rmt_supp_cap_complete where
  status : Nat
  handle : Nat
deriving DecidableEq, Repr

/-- The six LE Meta subevent codes of the `switch` in `rap_handle_hci_events`.
Their `#define`s are not part of the sources at hand, so they are parameters. -/
structure le_cs_subevent_codes where
  HCI_EVT_LE_CS_READ_RMT_SUPP_CAP_COMPLETE : Nat
  HCI_EVT_LE_CS_SECURITY_ENABLE_COMPLETE : Nat
  HCI_EVT_LE_CS_CONFIG_COMPLETE : Nat
  HCI_EVT_LE_CS_PROCEDURE_ENABLE_COMPLETE : Nat
  HCI_EVT_LE_CS_SUBEVENT_RESULT : Nat
  HCI_EVT_LE_CS_SUBEVENT_RESULT_CONTINUE : Nat
deriving DecidableEq, Repr

/-- The six codes as a list, in the order of the `case` labels. -/
def le_cs_subevent_codes.toList (c : le_cs_subevent_codes) : List Nat :=
  [c.HCI_EVT_LE_CS_READ_RMT_SUPP_CAP_COMPLETE,
   c.HCI_EVT_LE_CS_SECURITY_ENABLE_COMPLETE,
   c.HCI_EVT_LE_CS_CONFIG_COMPLETE,
   c.HCI_EVT_LE_CS_PROCEDURE_ENABLE_COMPLETE,
   c.HCI_EVT_LE_CS_SUBEVENT_RESULT,
   c.HCI_EVT_LE_CS_SUBEVENT_RESULT_CONTINUE]

/-- The `case` labels of one `switch` are pairwise different (C requires it). -/
def le_cs_subevent_codes.distinct (c : le_cs_subevent_codes) : Prop :=
  c.toList.Nodup

instance (c : le_cs_subevent_codes) : Decidable c.distinct :=
  inferInstanceAs (Decidable c.toList.Nodup)

/-- The value of the local `opcode_name` in `rap_handle_hci_events`. -/
inductive opcode_name_t
  | UNKNOWN
  | HCI_EVT_LE_CS_READ_RMT_SUPP_CAP_COMPLETE
  | HCI_EVT_LE_CS_SECURITY_ENABLE_COMPLETE
  | HCI_EVT_LE_CS_CONFIG_COMPLETE
  | HCI_EVT_LE_CS_PROCEDURE_ENABLE_COMPLETE
  | HCI_EVT_LE_CS_SUBEVENT_RESULT
  | HCI_EVT_LE_CS_SUBEVENT_RESULT_CONTINUE
deriving DecidableEq, Repr

/-- The completion callback handed to `bt_hci_send`. -/
inductive callback_t
  | rap_def_settings_done_cb
deriving DecidableEq, Repr

/-- The `user_data` pointer handed to `bt_hci_send`: `NULL` or the address of the
link's context. -/
inductive user_data_t
  | NULL
  | sm
deriving DecidableEq, Repr

/-- The opcode handed to `bt_hci_send`. -/
inductive opcode_t
  | HCI_OP_LE_CS_SET_DEFAULT_SETTINGS
deriving DecidableEq, Repr

/-- The event class handed to `bt_hci_register`. -/
inductive event_t
  | BT_HCI_EVT_LE_META_EVENT
deriving DecidableEq, Repr

/-- The event handler handed to `bt_hci_register`. -/
inductive event_callback_t
  | rap_handle_hci_events
deriving DecidableEq, Repr

/-- One observable action of the source: a `DBG` line, an `error` line, or a call
of `bt_hci_send` or `bt_hci_register`.  Each constructor is one call site of rap_hci.c and carries the
values that call site formats or passes. -/
inductive Effect
  | DBG_cs_state_machine_init
  | error_state_machine_not_initialized
  | DBG_state_transition (old_state new_state : cs_state_t)
  | DBG_unregistering_subevent_result_handlers
  | DBG_cs_default_setting_complete (size : Nat)
  | DBG_waiting_for_security_complete
  | error_cs_set_default_setting_failed (status : Nat)
  | DBG_rap_send_hci_def_settings_command
  | DBG_sending_set_default_settings
  | bt_hci_send (hci : Nat) (opcode : opcode_t)
      (cp : hci_cp_le_cs_set_default_settings) (callback : callback_t)
      (user_data : user_data_t)
  | DBG_sending_set_default_settings_status (status : Nat)
  | error_failed_to_send_default_settings_cmd
  | DBG_remote_capabilities_complete (status : Nat)
  | error_remote_capabilities_failed (status : Nat)
  | DBG_security_enable_complete (size : Nat)
  | DBG_waiting_for_config_complete
  | error_security_enable_failed (status : Nat)
  | DBG_configuration_complete (size : Nat)
  | DBG_waiting_for_procedure_enable
  | error_configuration_failed (status : Nat)
  | DBG_procedure_enable_complete (size : Nat)
  | error_procedure_enable_failed (status : Nat)
  | DBG_subevent_result (size : Nat)
  | error_subevent_result_status (status : Nat)
  | DBG_subevent_result_continue (size : Nat)
  | error_subevent_result_continue_status (status : Nat)
  | DBG_rap_handle_hci_events
  | error_le_meta_malformed_event (size : Nat)
  | DBG_default_case
  | DBG_received_event (opcode_name : opcode_name_t) (subevent : Nat)
  | DBG_ras_register_hci_events
  | error_invalid_parameters_or_failed_to_allocate
  | DBG_ras_register_hci_events_initialised
  | bt_hci_register (hci : Nat) (event : event_t) (callback : event_callback_t)
      (user_data : user_data_t)
  | DBG_bt_hci_register_done (event_id : Nat)
  | error_failed_to_register_le_meta_events (event_id : Nat)
  | DBG_ras_register_hci_events_done
deriving DecidableEq, Repr

/-- What a function leaves behind: the pointee of its context pointer (`none` for
a `NULL` pointer) and the actions it performed, in order. -/
structure Res where
  sm : Option cs_state_machine_t
  out : List Effect
deriving DecidableEq, Repr

/-- What the source uses without defining it: the subevent codes, the transport
call `bt_hci_send` (its return value, as a function of the transport and the
parameter block; 0 means the command was not queued) and the contents of the
local `struct btd_opts btd_opts` of `rap_send_hci_def_settings_command`. -/
structure Env where
  codes : le_cs_subevent_codes
  bt_hci_send : Nat → hci_cp_le_cs_set_default_settings → Nat
  btd_opts : btd_opts_bcs

/-- Read of one `uint8_t` at offset `i` from a byte pointer. -/
def read_u8 (data : Nat → Nat) (i : Nat) : Nat :=
  data i % 256

/-- Modelled from the spec: the identifier `status` tested by
`rap_def_settings_done_cb`, `rap_cs_sec_enable_cmplt_evt`,
`rap_cs_config_cmplt_evt`, `rap_cs_proc_enable_cmplt_evt`,
`rap_cs_subevt_result_evt` and `rap_cs_subevt_result_cont_evt` has no declaration
in the sources at hand.  The spec says that each handler parses a one-byte status
code from the front of its payload, so `status` is the first byte at `data`. -/
def status (data : Nat → Nat) : Nat :=
  read_u8 data 0

/-- Modelled from the spec: the layout of
`struct hci_evt_le_cs_read_rmt_supp_cap_complete` is not part of the sources at
hand.  The spec puts the one-byte status code at the front of the payload and says
that this event additionally carries a connection handle field; the handle is the
16-bit little-endian value that follows the status byte.  This is the cast
`(struct hci_evt_le_cs_read_rmt_supp_cap_complete*)data` followed by the field
reads. -/
def ev_of_data (data : Nat → Nat) : hci_evt_le_cs_read_rmt_supp_cap_complete :=
  { status := read_u8 data 0
    handle := read_u8 data 1 + 256 * read_u8 data 2 }

/-- The function `cs_state_machine_init(sm, hci)`. -/
def cs_state_machine_init (sm : Option cs_state_machine_t) (hci : Nat) : Res :=
  match sm with
  | none => { sm := none, out := [] }
  | some _ =>
    { sm := some { current_state := CS_UNSPECIFIED
                   hci := hci
                   initiator := false
                   procedure_active := false }
      out := [Effect.DBG_cs_state_machine_init] }

/-- The function `cs_set_state(sm, new_state)`. -/
def cs_set_state (sm : Option cs_state_machine_t) (new_state : cs_state_t) : Res :=
  match sm with
  | none => { sm := none, out := [Effect.error_state_machine_not_initialized] }
  | some s =>
    if s.current_state = new_state then
      { sm := some s, out := [] }
    else
      let old_state := s.current_state
      { sm := some { s with current_state := new_state }
        out := [Effect.DBG_state_transition s.current_state new_state] ++
          (if old_state = CS_STARTED ∧ new_state ≠ CS_STARTED then
            [Effect.DBG_unregistering_subevent_result_handlers]
          else []) }

/-- The function `cs_get_current_state(sm)`. -/
def cs_get_current_state (sm : Option cs_state_machine_t) : cs_state_t :=
  match sm with
  | some s => s.current_state
  | none => CS_UNSPECIFIED

/-- The function `cs_is_procedure_active(sm)`. -/
def cs_is_procedure_active (sm : Option cs_state_machine_t) : Bool :=
  match sm with
  | some s => s.procedure_active
  | none => false

/-- The callback `rap_def_settings_done_cb(data, size, user_data)`. -/
def rap_def_settings_done_cb (data : Nat → Nat) (size : Nat)
    (user_data : Option cs_state_machine_t) : Res :=
  let sm := user_data
  if status data = 0 then
    let r := cs_set_state sm CS_WAIT_SEC_CMPLT
    { sm := r.sm
      out := [Effect.DBG_cs_default_setting_complete size] ++ r.out ++
        [Effect.DBG_waiting_for_security_complete] }
  else
    let r := cs_set_state sm CS_STOPPED
    { sm := r.sm
      out := [Effect.DBG_cs_default_setting_complete size,
              Effect.error_cs_set_default_setting_failed (status data)] ++ r.out }

/-- The function `rap_send_hci_def_settings_command(hci, ev)`: it touches no
context, so it returns its actions only.  `cp` is zeroed first, hence the `else 0`
of the handle. -/
def rap_send_hci_def_settings_command (env : Env) (hci : Nat)
    (ev : hci_evt_le_cs_read_rmt_supp_cap_complete) : List Effect :=
  let cp : hci_cp_le_cs_set_default_settings :=
    { handle := if ev.handle ≠ 0 then ev.handle else 0
      role_enable := env.btd_opts.role
      cs_sync_ant_sel := env.btd_opts.cs_sync_ant_sel
      max_tx_power := env.btd_opts.max_tx_power }
  let status := env.bt_hci_send hci cp
  [Effect.DBG_rap_send_hci_def_settings_command,
   Effect.DBG_sending_set_default_settings,
   Effect.bt_hci_send hci opcode_t.HCI_OP_LE_CS_SET_DEFAULT_SETTINGS cp
     callback_t.rap_def_settings_done_cb user_data_t.NULL,
   Effect.DBG_sending_set_default_settings_status status] ++
  (if status = 0 then [Effect.error_failed_to_send_default_settings_cmd] else [])

/-- The handler `rap_rd_rmt_supp_cap_cmplt_evt(data, size, user_data)`.  With a
zero status it reads `sm->hci` before anything checks `sm`, which faults on
`NULL`. -/
def rap_rd_rmt_supp_cap_cmplt_evt (env : Env) (data : Nat → Nat) (_size : Nat)
    (user_data : Option cs_state_machine_t) : Option Res :=
  let sm := user_data
  let ev := ev_of_data data
  if ev.status = 0 then
    match sm with
    | none => none
    | some s =>
      let sent := rap_send_hci_def_settings_command env s.hci ev
      let r := cs_set_state sm CS_INIT
      some { sm := r.sm
             out := [Effect.DBG_remote_capabilities_complete ev.status] ++ sent ++ r.out }
  else
    let r := cs_set_state sm CS_STOPPED
    some { sm := r.sm
           out := [Effect.DBG_remote_capabilities_complete ev.status,
                   Effect.error_remote_capabilities_failed ev.status] ++ r.out }

/-- The handler `rap_cs_sec_enable_cmplt_evt(data, size, user_data)`. -/
def rap_cs_sec_enable_cmplt_evt (data : Nat → Nat) (size : Nat)
    (user_data : Option cs_state_machine_t) : Res :=
  let sm := user_data
  if status data = 0 then
    let r := cs_set_state sm CS_WAIT_CONFIG_CMPLT
    { sm := r.sm
      out := [Effect.DBG_security_enable_complete size] ++ r.out ++
        [Effect.DBG_waiting_for_config_complete] }
  else
    let r := cs_set_state sm CS_STOPPED
    { sm := r.sm
      out := [Effect.DBG_security_enable_complete size,
              Effect.error_security_enable_failed (status data)] ++ r.out }

/-- The handler `rap_cs_config_cmplt_evt(data, size, user_data)`. -/
def rap_cs_config_cmplt_evt (data : Nat → Nat) (size : Nat)
    (user_data : Option cs_state_machine_t) : Res :=
  let sm := user_data
  if status data = 0 then
    let r := cs_set_state sm CS_WAIT_PROC_CMPLT
    { sm := r.sm
      out := [Effect.DBG_configuration_complete size] ++ r.out ++
        [Effect.DBG_waiting_for_procedure_enable] }
  else
    let r := cs_set_state sm CS_STOPPED
    { sm := r.sm
      out := [Effect.DBG_configuration_complete size,
              Effect.error_configuration_failed (status data)] ++ r.out }

/-- The handler `rap_cs_proc_enable_cmplt_evt(data, size, user_data)`. -/
def rap_cs_proc_enable_cmplt_evt (data : Nat → Nat) (size : Nat)
    (user_data : Option cs_state_machine_t) : Res :=
  let sm := user_data
  if status data = 0 then
    let r := cs_set_state sm CS_STARTED
    { sm := r.sm
      out := [Effect.DBG_procedure_enable_complete size] ++ r.out }
  else
    let r := cs_set_state sm CS_STOPPED
    { sm := r.sm
      out := [Effect.DBG_procedure_enable_complete size,
              Effect.error_procedure_enable_failed (status data)] ++ r.out }

/-- The handler `rap_cs_subevt_result_evt(data, size, user_data)`. -/
def rap_cs_subevt_result_evt (data : Nat → Nat) (size : Nat)
    (user_data : Option cs_state_machine_t) : Res :=
  let sm := user_data
  if status data ≠ 0 then
    if status data = 0x0F then
      let r := cs_set_state sm CS_STOPPED
      { sm := r.sm
        out := [Effect.DBG_subevent_result size,
                Effect.error_subevent_result_status (status data)] ++ r.out }
    else
      { sm := sm
        out := [Effect.DBG_subevent_result size,
                Effect.error_subevent_result_status (status data)] }
  else
    { sm := sm, out := [Effect.DBG_subevent_result size] }

/-- The handler `rap_cs_subevt_result_cont_evt(data, size, user_data)`. -/
def rap_cs_subevt_result_cont_evt (data : Nat → Nat) (size : Nat)
    (user_data : Option cs_state_machine_t) : Res :=
  let sm := user_data
  if status data ≠ 0 then
    { sm := sm
      out := [Effect.DBG_subevent_result_continue size,
              Effect.error_subevent_result_continue_status (status data)] }
  else
    { sm := sm, out := [Effect.DBG_subevent_result_continue size] }

/-- The pointer `p + 1`: the memory seen one byte further. -/
def advance (p : Nat → Nat) : Nat → Nat :=
  fun i => p (i + 1)

/-- Wrap the actions of one `switch` arm between the entry `DBG` and the closing
`DBG("[HCI] Received event: ...")` of `rap_handle_hci_events`. -/
def dispatched (name : opcode_name_t) (subevent : Nat) (r : Res) : Res :=
  { sm := r.sm
    out := [Effect.DBG_rap_handle_hci_events] ++ r.out ++
      [Effect.DBG_received_event name subevent] }

/-- The demultiplexer `rap_handle_hci_events(data, size, user_data)`.  `size` is a
`uint8_t`; the `case` labels are tried in source order. -/
def rap_handle_hci_events (env : Env) (data : Nat → Nat) (size : Nat)
    (user_data : Option cs_state_machine_t) : Option Res :=
  let p := data
  if size < 1 then
    some { sm := user_data
           out := [Effect.DBG_rap_handle_hci_events,
                   Effect.error_le_meta_malformed_event size] }
  else
    let subevent := read_u8 p 0
    let payload := advance p
    let payload_len := (size - 1) % 256
    if subevent = env.codes.HCI_EVT_LE_CS_READ_RMT_SUPP_CAP_COMPLETE then
      (rap_rd_rmt_supp_cap_cmplt_evt env payload payload_len user_data).map
        (dispatched opcode_name_t.HCI_EVT_LE_CS_READ_RMT_SUPP_CAP_COMPLETE subevent)
    else if subevent = env.codes.HCI_EVT_LE_CS_SECURITY_ENABLE_COMPLETE then
      some (dispatched opcode_name_t.HCI_EVT_LE_CS_SECURITY_ENABLE_COMPLETE subevent
        (rap_cs_sec_enable_cmplt_evt payload payload_len user_data))
    else if subevent = env.codes.HCI_EVT_LE_CS_CONFIG_COMPLETE then
      some (dispatched opcode_name_t.HCI_EVT_LE_CS_CONFIG_COMPLETE subevent
        (rap_cs_config_cmplt_evt payload payload_len user_data))
    else if subevent = env.codes.HCI_EVT_LE_CS_PROCEDURE_ENABLE_COMPLETE then
      some (dispatched opcode_name_t.HCI_EVT_LE_CS_PROCEDURE_ENABLE_COMPLETE subevent
        (rap_cs_proc_enable_cmplt_evt payload payload_len user_data))
    else if subevent = env.codes.HCI_EVT_LE_CS_SUBEVENT_RESULT then
      some (dispatched opcode_name_t.HCI_EVT_LE_CS_SUBEVENT_RESULT subevent
        (rap_cs_subevt_result_evt payload payload_len user_data))
    else if subevent = env.codes.HCI_EVT_LE_CS_SUBEVENT_RESULT_CONTINUE then
      some (dispatched opcode_name_t.HCI_EVT_LE_CS_SUBEVENT_RESULT_CONTINUE subevent
        (rap_cs_subevt_result_cont_evt payload payload_len user_data))
    else
      some (dispatched opcode_name_t.UNKNOWN subevent
        { sm := user_data, out := [Effect.DBG_default_case] })

/-- Modelled from the spec: the transport that runs a queued command is not part
of the sources at hand.  The spec says that `on_complete(status_payload, len,
user_data)` is invoked once per queued command, with the `user_data` given at
submission.  `ctx` is the link's context; a callback registered with `NULL` cannot
reach it, so the context stays as it is and only the callback's actions are
kept. -/
def on_complete (user_data : user_data_t) (data : Nat → Nat) (size : Nat)
    (ctx : Option cs_state_machine_t) : Res :=
  match user_data with
  | user_data_t.NULL =>
    { sm := ctx, out := (rap_def_settings_done_cb data size none).out }
  | user_data_t.sm => rap_def_settings_done_cb data size ctx

/-- Whether an action is a call of `bt_hci_send`. -/
def Effect.is_bt_hci_send : Effect → Bool
  | Effect.bt_hci_send _ _ _ _ _ => true
  | _ => false

/-- The commands handed to the transport, in order. -/
def commands (out : List Effect) : List Effect :=
  out.filter Effect.is_bt_hci_send

/-- The `user_data` registered with the first command of a trace, if any. -/
def registered_user_data : List Effect → Option user_data_t
  | [] => none
  | Effect.bt_hci_send _ _ _ _ u :: _ => some u
  | _ :: rest => registered_user_data rest

/-- Whether an action is the malformed-event report, the only such report in the
source (`"[HCI] LE Meta: malformed event (size=%u)"`). -/
def Effect.is_malformed_report : Effect → Bool
  | Effect.error_le_meta_malformed_event _ => true
  | _ => false

/-- The malformed-event reports of a trace. -/
def malformed_reports (out : List Effect) : List Effect :=
  out.filter Effect.is_malformed_report

/-- Whether an action is the entry `DBG("[EVENT] ...")` of one of the event
handlers or of the completion callback: each of them starts with it. -/
def Effect.is_handler_entry : Effect → Bool
  | Effect.DBG_cs_default_setting_complete _ => true
  | Effect.DBG_remote_capabilities_complete _ => true
  | Effect.DBG_security_enable_complete _ => true
  | Effect.DBG_configuration_complete _ => true
  | Effect.DBG_procedure_enable_complete _ => true
  | Effect.DBG_subevent_result _ => true
  | Effect.DBG_subevent_result_continue _ => true
  | _ => false

/-- The handler entries of a trace. -/
def handler_entries (out : List Effect) : List Effect :=
  out.filter Effect.is_handler_entry

/-- Whether an action reports a state transition: the `"[STATE] Transition"` line
or the leave-`CS_STARTED` line of `cs_set_state`. -/
def Effect.is_transition_report : Effect → Bool
  | Effect.DBG_state_transition _ _ => true
  | Effect.DBG_unregistering_subevent_result_handlers => true
  | _ => false

/-- An event as the transport hands it over: the bytes and the byte count. -/
structure hci_event where
  data : Nat → Nat
  size : Nat

/-- The five completions of the canonical order, delivered one after the other to
the link context `ctx`: remote capabilities, set-default-settings (through the
callback and `user_data` registered by the command that the first step queued),
security enable, config, procedure enable.  The result holds the final context
and all actions. -/
def canonical_run (env : Env) (ctx : Option cs_state_machine_t)
    (caps settings sec config proc : hci_event) : Option Res :=
  (rap_handle_hci_events env caps.data caps.size ctx).bind fun r1 =>
  match registered_user_data r1.out with
  | none => none
  | some u =>
    let r2 := on_complete u settings.data settings.size r1.sm
    (rap_handle_hci_events env sec.data sec.size r2.sm).bind fun r3 =>
    (rap_handle_hci_events env config.data config.size r3.sm).bind fun r4 =>
    (rap_handle_hci_events env proc.data proc.size r4.sm).map fun r5 =>
      { sm := r5.sm, out := r1.out ++ r2.out ++ r3.out ++ r4.out ++ r5.out }

/-- The contexts reachable from `cs_state_machine_init` by `cs_set_state` calls and
events delivered through `rap_handle_hci_events`. -/
inductive Reachable (env : Env) : cs_state_machine_t → Prop
  | init (old : cs_state_machine_t) (hci : Nat) (s : cs_state_machine_t)
      (h : (cs_state_machine_init (some old) hci).sm = some s) : Reachable env s
  | set_state (s : cs_state_machine_t) (new_state : cs_state_t) (t : cs_state_machine_t)
      (hs : Reachable env s)
      (h : (cs_set_state (some s) new_state).sm = some t) : Reachable env t
  | event (s : cs_state_machine_t) (data : Nat → Nat) (size : Nat) (r : Res)
      (t : cs_state_machine_t) (hs : Reachable env s)
      (h : rap_handle_hci_events env data size (some s) = some r)
      (ht : r.sm = some t) : Reachable env t

/-- Memory that holds the bytes `l` from offset 0 on and zero bytes after them. -/
def mem (l : List Nat) : Nat → Nat :=
  fun i => l.getD i 0

/-- A sample environment: the LE Meta subevent numbers 0x2C, 0x2E .. 0x32, a
transport that queues every command (identifier 1), and sample option values. -/
def env0 : Env :=
  { codes :=
      { HCI_EVT_LE_CS_READ_RMT_SUPP_CAP_COMPLETE := 0x2C
        HCI_EVT_LE_CS_SECURITY_ENABLE_COMPLETE := 0x2E
        HCI_EVT_LE_CS_CONFIG_COMPLETE := 0x2F
        HCI_EVT_LE_CS_PROCEDURE_ENABLE_COMPLETE := 0x30
        HCI_EVT_LE_CS_SUBEVENT_RESULT := 0x31
        HCI_EVT_LE_CS_SUBEVENT_RESULT_CONTINUE := 0x32 }
    bt_hci_send := fun _ _ => 1
    btd_opts := { role := 3, cs_sync_ant_sel := 1, max_tx_power := 20 } }

/-- A sample context in a given state, reflector role, transport at address 7. -/
def ctx0 (st : cs_state_t) : cs_state_machine_t :=
  { current_state := st, hci := 7, initiator := false, procedure_active := false }

/-- An LE Meta event `e` that carries the subevent code `code` and whose handler
reads the status `st`: at least the code byte is present, the first byte is
`code`, and the byte at the front of the handler payload is `st`. -/
def le_meta_event (code st : Nat) (e : hci_event) : Prop :=
  1 ≤ e.size ∧ read_u8 e.data 0 = code ∧ status (advance e.data) = st

instance (code st : Nat) (e : hci_event) : Decidable (le_meta_event code st e) :=
  inferInstanceAs (Decidable (_ ∧ _ ∧ _))

/-- The sample environment with a transport that rejects every command:
`bt_hci_send` returns 0. -/
def env_reject : Env :=
  { codes := env0.codes
    bt_hci_send := fun _ _ => 0
    btd_opts := env0.btd_opts }

/-- A sample initiator-role context in a given state, transport at address 7. -/
def ctx_initiator (st : cs_state_t) : cs_state_machine_t :=
  { current_state := st, hci := 7, initiator := true, procedure_active := false }

/-! ## Basic facts about `cs_set_state` -/

theorem cs_set_state_sm (s : cs_state_machine_t) (n : cs_state_t) :
    (cs_set_state (some s) n).sm = some { s with current_state := n } := by
  unfold cs_set_state
  by_cases h : s.current_state = n
  · subst h; simp
  · simp [h]

theorem commands_cs_set_state (sm : Option cs_state_machine_t) (n : cs_state_t) :
    commands (cs_set_state sm n).out = [] := by
  cases sm with
  | none => rfl
  | some s =>
    simp only [cs_set_state]
    split_ifs <;> rfl

theorem malformed_reports_cs_set_state (sm : Option cs_state_machine_t) (n : cs_state_t) :
    malformed_reports (cs_set_state sm n).out = [] := by
  cases sm with
  | none => rfl
  | some s =>
    simp only [cs_set_state]
    split_ifs <;> rfl

theorem commands_append (a b : List Effect) :
    commands (a ++ b) = commands a ++ commands b := by
  simp [commands]

/-! ## The `switch` of `rap_handle_hci_events`, one arm at a time -/

theorem dispatch_read_rmt_supp_cap (env : Env) (data : Nat → Nat) (size : Nat)
    (ud : Option cs_state_machine_t) (hsize : 1 ≤ size)
    (hcode : read_u8 data 0 = env.codes.HCI_EVT_LE_CS_READ_RMT_SUPP_CAP_COMPLETE) :
    rap_handle_hci_events env data size ud =
      (rap_rd_rmt_supp_cap_cmplt_evt env (advance data) ((size - 1) % 256) ud).map
        (dispatched opcode_name_t.HCI_EVT_LE_CS_READ_RMT_SUPP_CAP_COMPLETE
          (read_u8 data 0)) := by
  have h0 : ¬ size < 1 := by omega
  simp only [rap_handle_hci_events, h0, if_false, hcode, if_true]

theorem dispatch_security_enable (env : Env) (hd : env.codes.distinct) (data : Nat → Nat)
    (size : Nat) (ud : Option cs_state_machine_t) (hsize : 1 ≤ size)
    (hcode : read_u8 data 0 = env.codes.HCI_EVT_LE_CS_SECURITY_ENABLE_COMPLETE) :
    rap_handle_hci_events env data size ud =
      some (dispatched opcode_name_t.HCI_EVT_LE_CS_SECURITY_ENABLE_COMPLETE
        (read_u8 data 0) (rap_cs_sec_enable_cmplt_evt (advance data) ((size - 1) % 256) ud)) := by
  have h0 : ¬ size < 1 := by omega
  simp only [le_cs_subevent_codes.distinct, le_cs_subevent_codes.toList, List.nodup_cons,
    List.mem_cons, List.mem_singleton, not_or, List.not_mem_nil, not_false_eq_true,
    List.nodup_nil, and_true] at hd
  obtain ⟨⟨h12, -⟩, -⟩ := hd
  have h1 : ¬ env.codes.HCI_EVT_LE_CS_SECURITY_ENABLE_COMPLETE =
      env.codes.HCI_EVT_LE_CS_READ_RMT_SUPP_CAP_COMPLETE := fun h => h12 h.symm
  simp only [rap_handle_hci_events, h0, if_false, hcode, h1, if_true]

theorem dispatch_config (env : Env) (hd : env.codes.distinct) (data : Nat → Nat)
    (size : Nat) (ud : Option cs_state_machine_t) (hsize : 1 ≤ size)
    (hcode : read_u8 data 0 = env.codes.HCI_EVT_LE_CS_CONFIG_COMPLETE) :
    rap_handle_hci_events env data size ud =
      some (dispatched opcode_name_t.HCI_EVT_LE_CS_CONFIG_COMPLETE
        (read_u8 data 0) (rap_cs_config_cmplt_evt (advance data) ((size - 1) % 256) ud)) := by
  have h0 : ¬ size < 1 := by omega
  simp only [le_cs_subevent_codes.distinct, le_cs_subevent_codes.toList, List.nodup_cons,
    List.mem_cons, List.mem_singleton, not_or, List.not_mem_nil, not_false_eq_true,
    List.nodup_nil, and_true] at hd
  obtain ⟨⟨-, h13, -⟩, ⟨h23, -⟩, -⟩ := hd
  have h1 : ¬ env.codes.HCI_EVT_LE_CS_CONFIG_COMPLETE =
      env.codes.HCI_EVT_LE_CS_READ_RMT_SUPP_CAP_COMPLETE := fun h => h13 h.symm
  have h2 : ¬ env.codes.HCI_EVT_LE_CS_CONFIG_COMPLETE =
      env.codes.HCI_EVT_LE_CS_SECURITY_ENABLE_COMPLETE := fun h => h23 h.symm
  simp only [rap_handle_hci_events, h0, if_false, hcode, h1, h2, if_true]

theorem dispatch_procedure_enable (env : Env) (hd : env.codes.distinct) (data : Nat → Nat)
    (size : Nat) (ud : Option cs_state_machine_t) (hsize : 1 ≤ size)
    (hcode : read_u8 data 0 = env.codes.HCI_EVT_LE_CS_PROCEDURE_ENABLE_COMPLETE) :
    rap_handle_hci_events env data size ud =
      some (dispatched opcode_name_t.HCI_EVT_LE_CS_PROCEDURE_ENABLE_COMPLETE
        (read_u8 data 0) (rap_cs_proc_enable_cmplt_evt (advance data) ((size - 1) % 256) ud)) := by
  have h0 : ¬ size < 1 := by omega
  simp only [le_cs_subevent_codes.distinct, le_cs_subevent_codes.toList, List.nodup_cons,
    List.mem_cons, List.mem_singleton, not_or, List.not_mem_nil, not_false_eq_true,
    List.nodup_nil, and_true] at hd
  obtain ⟨⟨-, -, h14, -⟩, ⟨-, h24, -⟩, ⟨h34, -⟩, -⟩ := hd
  have h1 : ¬ env.codes.HCI_EVT_LE_CS_PROCEDURE_ENABLE_COMPLETE =
      env.codes.HCI_EVT_LE_CS_READ_RMT_SUPP_CAP_COMPLETE := fun h => h14 h.symm
  have h2 : ¬ env.codes.HCI_EVT_LE_CS_PROCEDURE_ENABLE_COMPLETE =
      env.codes.HCI_EVT_LE_CS_SECURITY_ENABLE_COMPLETE := fun h => h24 h.symm
  have h3 : ¬ env.codes.HCI_EVT_LE_CS_PROCEDURE_ENABLE_COMPLETE =
      env.codes.HCI_EVT_LE_CS_CONFIG_COMPLETE := fun h => h34 h.symm
  simp only [rap_handle_hci_events, h0, if_false, hcode, h1, h2, h3, if_true]

theorem dispatch_subevent_result (env : Env) (hd : env.codes.distinct) (data : Nat → Nat)
    (size : Nat) (ud : Option cs_state_machine_t) (hsize : 1 ≤ size)
    (hcode : read_u8 data 0 = env.codes.HCI_EVT_LE_CS_SUBEVENT_RESULT) :
    rap_handle_hci_events env data size ud =
      some (dispatched opcode_name_t.HCI_EVT_LE_CS_SUBEVENT_RESULT
        (read_u8 data 0) (rap_cs_subevt_result_evt (advance data) ((size - 1) % 256) ud)) := by
  have h0 : ¬ size < 1 := by omega
  simp only [le_cs_subevent_codes.distinct, le_cs_subevent_codes.toList, List.nodup_cons,
    List.mem_cons, List.mem_singleton, not_or, List.not_mem_nil, not_false_eq_true,
    List.nodup_nil, and_true] at hd
  obtain ⟨⟨-, -, -, h15, -⟩, ⟨-, -, h25, -⟩, ⟨-, h35, -⟩, ⟨h45, -⟩, -⟩ := hd
  have h1 : ¬ env.codes.HCI_EVT_LE_CS_SUBEVENT_RESULT =
      env.codes.HCI_EVT_LE_CS_READ_RMT_SUPP_CAP_COMPLETE := fun h => h15 h.symm
  have h2 : ¬ env.codes.HCI_EVT_LE_CS_SUBEVENT_RESULT =
      env.codes.HCI_EVT_LE_CS_SECURITY_ENABLE_COMPLETE := fun h => h25 h.symm
  have h3 : ¬ env.codes.HCI_EVT_LE_CS_SUBEVENT_RESULT =
      env.codes.HCI_EVT_LE_CS_CONFIG_COMPLETE := fun h => h35 h.symm
  have h4 : ¬ env.codes.HCI_EVT_LE_CS_SUBEVENT_RESULT =
      env.codes.HCI_EVT_LE_CS_PROCEDURE_ENABLE_COMPLETE := fun h => h45 h.symm
  simp only [rap_handle_hci_events, h0, if_false, hcode, h1, h2, h3, h4, if_true]

theorem dispatch_subevent_result_continue (env : Env) (hd : env.codes.distinct)
    (data : Nat → Nat) (size : Nat) (ud : Option cs_state_machine_t) (hsize : 1 ≤ size)
    (hcode : read_u8 data 0 = env.codes.HCI_EVT_LE_CS_SUBEVENT_RESULT_CONTINUE) :
    rap_handle_hci_events env data size ud =
      some (dispatched opcode_name_t.HCI_EVT_LE_CS_SUBEVENT_RESULT_CONTINUE
        (read_u8 data 0)
        (rap_cs_subevt_result_cont_evt (advance data) ((size - 1) % 256) ud)) := by
  have h0 : ¬ size < 1 := by omega
  simp only [le_cs_subevent_codes.distinct, le_cs_subevent_codes.toList, List.nodup_cons,
    List.mem_cons, List.mem_singleton, not_or, List.not_mem_nil, not_false_eq_true,
    List.nodup_nil, and_true] at hd
  obtain ⟨⟨-, -, -, -, h16⟩, ⟨-, -, -, h26⟩, ⟨-, -, h36⟩, ⟨-, h46⟩, h56⟩ := hd
  have h1 : ¬ env.codes.HCI_EVT_LE_CS_SUBEVENT_RESULT_CONTINUE =
      env.codes.HCI_EVT_LE_CS_READ_RMT_SUPP_CAP_COMPLETE := fun h => h16 h.symm
  have h2 : ¬ env.codes.HCI_EVT_LE_CS_SUBEVENT_RESULT_CONTINUE =
      env.codes.HCI_EVT_LE_CS_SECURITY_ENABLE_COMPLETE := fun h => h26 h.symm
  have h3 : ¬ env.codes.HCI_EVT_LE_CS_SUBEVENT_RESULT_CONTINUE =
      env.codes.HCI_EVT_LE_CS_CONFIG_COMPLETE := fun h => h36 h.symm
  have h4 : ¬ env.codes.HCI_EVT_LE_CS_SUBEVENT_RESULT_CONTINUE =
      env.codes.HCI_EVT_LE_CS_PROCEDURE_ENABLE_COMPLETE := fun h => h46 h.symm
  have h5 : ¬ env.codes.HCI_EVT_LE_CS_SUBEVENT_RESULT_CONTINUE =
      env.codes.HCI_EVT_LE_CS_SUBEVENT_RESULT := fun h => h56 h.symm
  simp only [rap_handle_hci_events, h0, if_false, hcode, h1, h2, h3, h4, h5, if_true]

theorem sm_dispatched (name : opcode_name_t) (subevent : Nat) (r : Res) :
    (dispatched name subevent r).sm = r.sm := rfl

theorem commands_dispatched (name : opcode_name_t) (subevent : Nat) (r : Res) :
    commands (dispatched name subevent r).out = commands r.out := by
  simp [dispatched, commands, Effect.is_bt_hci_send]

/-! ## Non-zero status in a negotiation step -/

theorem rd_rmt_failed (env : Env) (data : Nat → Nat) (size : Nat) (s : cs_state_machine_t)
    (h : status data ≠ 0) :
    ∃ r, rap_rd_rmt_supp_cap_cmplt_evt env data size (some s) = some r ∧
      r.sm = some { s with current_state := CS_STOPPED } ∧ commands r.out = [] := by
  have h1 : ¬ (ev_of_data data).status = 0 := h
  refine ⟨_, by simp only [rap_rd_rmt_supp_cap_cmplt_evt, h1, if_false]; rfl, ?_, ?_⟩
  · exact cs_set_state_sm s CS_STOPPED
  · rw [commands_append, commands_cs_set_state]; rfl

theorem sec_enable_failed (data : Nat → Nat) (size : Nat) (s : cs_state_machine_t)
    (h : status data ≠ 0) :
    (rap_cs_sec_enable_cmplt_evt data size (some s)).sm =
        some { s with current_state := CS_STOPPED } ∧
      commands (rap_cs_sec_enable_cmplt_evt data size (some s)).out = [] := by
  simp only [rap_cs_sec_enable_cmplt_evt, h, if_false]
  refine ⟨cs_set_state_sm s CS_STOPPED, ?_⟩
  rw [commands_append, commands_cs_set_state]; rfl

theorem config_failed (data : Nat → Nat) (size : Nat) (s : cs_state_machine_t)
    (h : status data ≠ 0) :
    (rap_cs_config_cmplt_evt data size (some s)).sm =
        some { s with current_state := CS_STOPPED } ∧
      commands (rap_cs_config_cmplt_evt data size (some s)).out = [] := by
  simp only [rap_cs_config_cmplt_evt, h, if_false]
  refine ⟨cs_set_state_sm s CS_STOPPED, ?_⟩
  rw [commands_append, commands_cs_set_state]; rfl

theorem proc_enable_failed (data : Nat → Nat) (size : Nat) (s : cs_state_machine_t)
    (h : status data ≠ 0) :
    (rap_cs_proc_enable_cmplt_evt data size (some s)).sm =
        some { s with current_state := CS_STOPPED } ∧
      commands (rap_cs_proc_enable_cmplt_evt data size (some s)).out = [] := by
  simp only [rap_cs_proc_enable_cmplt_evt, h, if_false]
  refine ⟨cs_set_state_sm s CS_STOPPED, ?_⟩
  rw [commands_append, commands_cs_set_state]; rfl

/-- C3: a remote capabilities, security enable, config or procedure enable
completion whose status byte is not zero, dispatched by `rap_handle_hci_events` to
a context in any state, returns with the context in `CS_STOPPED` (every other
field as before) and with no call of `bt_hci_send` in its actions. -/
theorem failed_step_stops_without_command (env : Env) (hd : env.codes.distinct)
    (s : cs_state_machine_t) (e : hci_event) (code st : Nat)
    (hcode : code ∈ [env.codes.HCI_EVT_LE_CS_READ_RMT_SUPP_CAP_COMPLETE,
      env.codes.HCI_EVT_LE_CS_SECURITY_ENABLE_COMPLETE,
      env.codes.HCI_EVT_LE_CS_CONFIG_COMPLETE,
      env.codes.HCI_EVT_LE_CS_PROCEDURE_ENABLE_COMPLETE])
    (he : le_meta_event code st e) (hst : st ≠ 0) :
    ∃ r, rap_handle_hci_events env e.data e.size (some s) = some r ∧
      r.sm = some { s with current_state := CS_STOPPED } ∧
      cs_get_current_state r.sm = CS_STOPPED ∧
      commands r.out = [] := by
  obtain ⟨hsize, hc, hs⟩ := he
  have hne : status (advance e.data) ≠ 0 := by rw [hs]; exact hst
  simp only [List.mem_cons, List.mem_singleton, List.not_mem_nil, or_false] at hcode
  rcases hcode with h | h | h | h
  · obtain ⟨r, hr, hsm, hcmd⟩ :=
      rd_rmt_failed env (advance e.data) ((e.size - 1) % 256) s hne
    refine ⟨dispatched opcode_name_t.HCI_EVT_LE_CS_READ_RMT_SUPP_CAP_COMPLETE
      (read_u8 e.data 0) r, ?_, ?_, ?_, ?_⟩
    · rw [dispatch_read_rmt_supp_cap env e.data e.size (some s) hsize (hc.trans h), hr]; rfl
    · rw [sm_dispatched]; exact hsm
    · rw [sm_dispatched, hsm]; rfl
    · rw [commands_dispatched]; exact hcmd
  · obtain ⟨hsm, hcmd⟩ := sec_enable_failed (advance e.data) ((e.size - 1) % 256) s hne
    refine ⟨_, dispatch_security_enable env hd e.data e.size (some s) hsize (hc.trans h),
      ?_, ?_, ?_⟩
    · rw [sm_dispatched]; exact hsm
    · rw [sm_dispatched, hsm]; rfl
    · rw [commands_dispatched]; exact hcmd
  · obtain ⟨hsm, hcmd⟩ := config_failed (advance e.data) ((e.size - 1) % 256) s hne
    refine ⟨_, dispatch_config env hd e.data e.size (some s) hsize (hc.trans h),
      ?_, ?_, ?_⟩
    · rw [sm_dispatched]; exact hsm
    · rw [sm_dispatched, hsm]; rfl
    · rw [commands_dispatched]; exact hcmd
  · obtain ⟨hsm, hcmd⟩ := proc_enable_failed (advance e.data) ((e.size - 1) % 256) s hne
    refine ⟨_, dispatch_procedure_enable env hd e.data e.size (some s) hsize (hc.trans h),
      ?_, ?_, ?_⟩
    · rw [sm_dispatched]; exact hsm
    · rw [sm_dispatched, hsm]; rfl
    · rw [commands_dispatched]; exact hcmd

/-- C3, scenario B: in `CS_WAIT_CONFIG_CMPLT`, a config complete event with status
0x0F stops the context and queues no command. -/
theorem failed_step_stops_without_command_witness :
    env0.codes.distinct ∧
    (0x2F : Nat) ∈ [env0.codes.HCI_EVT_LE_CS_READ_RMT_SUPP_CAP_COMPLETE,
      env0.codes.HCI_EVT_LE_CS_SECURITY_ENABLE_COMPLETE,
      env0.codes.HCI_EVT_LE_CS_CONFIG_COMPLETE,
      env0.codes.HCI_EVT_LE_CS_PROCEDURE_ENABLE_COMPLETE] ∧
    le_meta_event 0x2F 0x0F { data := mem [0x2F, 0x0F], size := 2 } ∧
    (0x0F : Nat) ≠ 0 ∧
    ∃ r, rap_handle_hci_events env0 (mem [0x2F, 0x0F]) 2
        (some (ctx0 CS_WAIT_CONFIG_CMPLT)) = some r ∧
      r.sm = some (ctx0 CS_STOPPED) ∧
      cs_get_current_state r.sm = CS_STOPPED ∧
      commands r.out = [] :=
  ⟨by decide, by decide, by decide, by decide,
    failed_step_stops_without_command env0 (by decide) (ctx0 CS_WAIT_CONFIG_CMPLT)
      { data := mem [0x2F, 0x0F], size := 2 } 0x2F 0x0F (by decide) (by decide) (by decide)⟩

/-! ## Zero status in a negotiation step -/

theorem sec_enable_ok (data : Nat → Nat) (size : Nat) (s : cs_state_machine_t)
    (h : status data = 0) :
    (rap_cs_sec_enable_cmplt_evt data size (some s)).sm =
      some { s with current_state := CS_WAIT_CONFIG_CMPLT } := by
  simp only [rap_cs_sec_enable_cmplt_evt, h, if_true]
  exact cs_set_state_sm s CS_WAIT_CONFIG_CMPLT

theorem config_ok (data : Nat → Nat) (size : Nat) (s : cs_state_machine_t)
    (h : status data = 0) :
    (rap_cs_config_cmplt_evt data size (some s)).sm =
      some { s with current_state := CS_WAIT_PROC_CMPLT } := by
  simp only [rap_cs_config_cmplt_evt, h, if_true]
  exact cs_set_state_sm s CS_WAIT_PROC_CMPLT

theorem proc_enable_ok (data : Nat → Nat) (size : Nat) (s : cs_state_machine_t)
    (h : status data = 0) :
    (rap_cs_proc_enable_cmplt_evt data size (some s)).sm =
      some { s with current_state := CS_STARTED } := by
  simp only [rap_cs_proc_enable_cmplt_evt, h, if_true]
  exact cs_set_state_sm s CS_STARTED

/-- C4: for each of the three table rows (security enable complete from
`CS_WAIT_SEC_CMPLT` to `CS_WAIT_CONFIG_CMPLT`, config complete from
`CS_WAIT_CONFIG_CMPLT` to `CS_WAIT_PROC_CMPLT`, procedure enable complete from
`CS_WAIT_PROC_CMPLT` to `CS_STARTED`), the event of that row with status 0,
delivered to a context in the row's From state, returns with the context in the
row's To state. -/
theorem success_step_follows_table (env : Env) (hd : env.codes.distinct)
    (s : cs_state_machine_t) (e : hci_event) (row : Nat × cs_state_t × cs_state_t)
    (hrow : row ∈ [
      (env.codes.HCI_EVT_LE_CS_SECURITY_ENABLE_COMPLETE,
        CS_WAIT_SEC_CMPLT, CS_WAIT_CONFIG_CMPLT),
      (env.codes.HCI_EVT_LE_CS_CONFIG_COMPLETE,
        CS_WAIT_CONFIG_CMPLT, CS_WAIT_PROC_CMPLT),
      (env.codes.HCI_EVT_LE_CS_PROCEDURE_ENABLE_COMPLETE,
        CS_WAIT_PROC_CMPLT, CS_STARTED)])
    (he : le_meta_event row.1 0 e) (hfrom : s.current_state = row.2.1) :
    ∃ r, rap_handle_hci_events env e.data e.size (some s) = some r ∧
      cs_get_current_state r.sm = row.2.2 ∧
      r.sm = some { s with current_state := row.2.2 } := by
  obtain ⟨hsize, hc, hs⟩ := he
  simp only [List.mem_cons, List.mem_singleton, List.not_mem_nil, or_false] at hrow
  rcases hrow with h | h | h
  · subst h
    have hsm := sec_enable_ok (advance e.data) ((e.size - 1) % 256) s hs
    refine ⟨_, dispatch_security_enable env hd e.data e.size (some s) hsize hc, ?_, ?_⟩
    · rw [sm_dispatched, hsm]; rfl
    · rw [sm_dispatched]; exact hsm
  · subst h
    have hsm := config_ok (advance e.data) ((e.size - 1) % 256) s hs
    refine ⟨_, dispatch_config env hd e.data e.size (some s) hsize hc, ?_, ?_⟩
    · rw [sm_dispatched, hsm]; rfl
    · rw [sm_dispatched]; exact hsm
  · subst h
    have hsm := proc_enable_ok (advance e.data) ((e.size - 1) % 256) s hs
    refine ⟨_, dispatch_procedure_enable env hd e.data e.size (some s) hsize hc, ?_, ?_⟩
    · rw [sm_dispatched, hsm]; rfl
    · rw [sm_dispatched]; exact hsm

/-- C4 at a concrete input: in `CS_WAIT_PROC_CMPLT`, a procedure enable complete
event with status 0 leaves the context in `CS_STARTED`. -/
theorem success_step_follows_table_witness :
    env0.codes.distinct ∧
    ((0x30 : Nat), CS_WAIT_PROC_CMPLT, CS_STARTED) ∈ [
      (env0.codes.HCI_EVT_LE_CS_SECURITY_ENABLE_COMPLETE,
        CS_WAIT_SEC_CMPLT, CS_WAIT_CONFIG_CMPLT),
      (env0.codes.HCI_EVT_LE_CS_CONFIG_COMPLETE,
        CS_WAIT_CONFIG_CMPLT, CS_WAIT_PROC_CMPLT),
      (env0.codes.HCI_EVT_LE_CS_PROCEDURE_ENABLE_COMPLETE,
        CS_WAIT_PROC_CMPLT, CS_STARTED)] ∧
    le_meta_event 0x30 0 { data := mem [0x30, 0x00], size := 2 } ∧
    (ctx0 CS_WAIT_PROC_CMPLT).current_state = CS_WAIT_PROC_CMPLT ∧
    ∃ r, rap_handle_hci_events env0 (mem [0x30, 0x00]) 2
        (some (ctx0 CS_WAIT_PROC_CMPLT)) = some r ∧
      cs_get_current_state r.sm = CS_STARTED ∧
      r.sm = some (ctx0 CS_STARTED) :=
  ⟨by decide, by decide, by decide, rfl,
    success_step_follows_table env0 (by decide) (ctx0 CS_WAIT_PROC_CMPLT)
      { data := mem [0x30, 0x00], size := 2 } (0x30, CS_WAIT_PROC_CMPLT, CS_STARTED)
      (by decide) (by decide) rfl⟩

/-! ## Subevent results -/

/-- C5: a subevent result event with status byte `st`, delivered to a context in
`CS_STARTED`, returns with the context in `CS_STOPPED` when `st` is 0x0F and in
`CS_STARTED` for every other `st`; delivered with status 0x0F to a context in
`CS_STOPPED`, it leaves the context in `CS_STOPPED`.  In both cases no other
field changes. -/
theorem subevent_result_stops_only_on_0x0F (env : Env) (hd : env.codes.distinct)
    (s : cs_state_machine_t) (e : hci_event) (st : Nat)
    (he : le_meta_event env.codes.HCI_EVT_LE_CS_SUBEVENT_RESULT st e)
    (hs : s.current_state = CS_STARTED ∨ (s.current_state = CS_STOPPED ∧ st = 0x0F)) :
    ∃ r, rap_handle_hci_events env e.data e.size (some s) = some r ∧
      cs_get_current_state r.sm = (if st = 0x0F then CS_STOPPED else CS_STARTED) ∧
      r.sm = some { s with
        current_state := if st = 0x0F then CS_STOPPED else CS_STARTED } := by
  obtain ⟨hsize, hc, hst⟩ := he
  have key : (rap_cs_subevt_result_evt (advance e.data) ((e.size - 1) % 256) (some s)).sm =
      some { s with current_state := if st = 0x0F then CS_STOPPED else CS_STARTED } := by
    by_cases h15 : st = 0x0F
    · have h0 : status (advance e.data) ≠ 0 := by rw [hst, h15]; decide
      have h1 : status (advance e.data) = 0x0F := by rw [hst, h15]
      simp only [rap_cs_subevt_result_evt, h0, h1, h15, if_true, ne_eq, not_false_eq_true]
      exact cs_set_state_sm s CS_STOPPED
    · have hstarted : s.current_state = CS_STARTED := by
        rcases hs with h | ⟨-, h⟩
        · exact h
        · exact absurd h h15
      have h1 : ¬ status (advance e.data) = 0x0F := by rw [hst]; exact h15
      have hself : s = { s with current_state := CS_STARTED } := by
        cases s; simp_all
      simp only [rap_cs_subevt_result_evt, h1, h15, if_false]
      split_ifs
      · exact congrArg some hself
      · exact congrArg some hself
  refine ⟨_, dispatch_subevent_result env hd e.data e.size (some s) hsize hc, ?_, ?_⟩
  · rw [sm_dispatched, key]; rfl
  · rw [sm_dispatched]; exact key

/-- C5, scenario C: in `CS_STARTED`, a subevent result event with status 0x0F
stops the context. -/
theorem subevent_result_stops_only_on_0x0F_witness :
    env0.codes.distinct ∧
    le_meta_event env0.codes.HCI_EVT_LE_CS_SUBEVENT_RESULT 0x0F
      { data := mem [0x31, 0x0F], size := 2 } ∧
    ((ctx0 CS_STARTED).current_state = CS_STARTED ∨
      ((ctx0 CS_STARTED).current_state = CS_STOPPED ∧ (0x0F : Nat) = 0x0F)) ∧
    ∃ r, rap_handle_hci_events env0 (mem [0x31, 0x0F]) 2 (some (ctx0 CS_STARTED)) = some r ∧
      cs_get_current_state r.sm = CS_STOPPED ∧
      r.sm = some (ctx0 CS_STOPPED) :=
  ⟨by decide, by decide, Or.inl rfl,
    subevent_result_stops_only_on_0x0F env0 (by decide) (ctx0 CS_STARTED)
      { data := mem [0x31, 0x0F], size := 2 } 0x0F (by decide) (Or.inl rfl)⟩

/-! ## Self transition -/

/-- C6: `cs_set_state(sm, sm->current_state)` on a non-null context returns with
every field of the context as before and performs no action at all: no
`"[STATE] Transition"` line, no leave-`CS_STARTED` line, nothing else. -/
theorem cs_set_state_self (s : cs_state_machine_t) :
    cs_set_state (some s) s.current_state = { sm := some s, out := [] } ∧
    (cs_set_state (some s) s.current_state).out.filter Effect.is_transition_report = [] := by
  have h : cs_set_state (some s) s.current_state = { sm := some s, out := [] } := by
    simp [cs_set_state]
  exact ⟨h, by rw [h]; rfl⟩

/-! ## The demultiplexer on malformed and unknown events -/

/-- C8: `rap_handle_hci_events` called with `size` 0, for every context pointer
(null included) and whatever the memory at `data` holds, returns with the context
as it was, after the entry `DBG` and exactly one malformed-event `error`; no
handler is entered and `bt_hci_send` is not called. -/
theorem rap_handle_hci_events_size_zero (env : Env) (data : Nat → Nat)
    (user_data : Option cs_state_machine_t) :
    ∃ r, rap_handle_hci_events env data 0 user_data = some r ∧
      r.sm = user_data ∧
      r.out = [Effect.DBG_rap_handle_hci_events, Effect.error_le_meta_malformed_event 0] ∧
      (malformed_reports r.out).length = 1 ∧
      handler_entries r.out = [] ∧
      commands r.out = [] :=
  ⟨{ sm := user_data
     out := [Effect.DBG_rap_handle_hci_events, Effect.error_le_meta_malformed_event 0] },
    rfl, rfl, rfl, rfl, rfl, rfl⟩

/-- C9: `rap_handle_hci_events` called with at least one byte whose first byte is
none of the six handled subevent codes returns with the context as it was (for
every context pointer, null included); its only actions are the entry `DBG`, the
default-case `DBG` and the closing `DBG` with the name `UNKNOWN`, so no handler is
entered and `bt_hci_send` is not called. -/
theorem rap_handle_hci_events_unknown_code (env : Env) (data : Nat → Nat) (size : Nat)
    (user_data : Option cs_state_machine_t) (hsize : 1 ≤ size)
    (hcode : read_u8 data 0 ∉ env.codes.toList) :
    ∃ r, rap_handle_hci_events env data size user_data = some r ∧
      r.sm = user_data ∧
      commands r.out = [] ∧
      handler_entries r.out = [] ∧
      r.out = [Effect.DBG_rap_handle_hci_events, Effect.DBG_default_case,
        Effect.DBG_received_event opcode_name_t.UNKNOWN (read_u8 data 0)] := by
  have h0 : ¬ size < 1 := by omega
  simp only [le_cs_subevent_codes.toList, List.mem_cons, List.mem_singleton,
    List.not_mem_nil, or_false, not_or] at hcode
  obtain ⟨h1, h2, h3, h4, h5, h6⟩ := hcode
  refine ⟨{ sm := user_data
            out := [Effect.DBG_rap_handle_hci_events, Effect.DBG_default_case,
              Effect.DBG_received_event opcode_name_t.UNKNOWN (read_u8 data 0)] },
    ?_, rfl, rfl, rfl, rfl⟩
  simp only [rap_handle_hci_events, h0, h1, h2, h3, h4, h5, h6, if_false]
  rfl

/-- C9 at a concrete input: the two bytes 0x2D 0x00 (0x2D is not a handled code)
leave a context in `CS_WAIT_SEC_CMPLT` as it was. -/
theorem rap_handle_hci_events_unknown_code_witness :
    1 ≤ 2 ∧ read_u8 (mem [0x2D, 0x00]) 0 ∉ env0.codes.toList ∧
    ∃ r, rap_handle_hci_events env0 (mem [0x2D, 0x00]) 2
        (some (ctx0 CS_WAIT_SEC_CMPLT)) = some r ∧
      r.sm = some (ctx0 CS_WAIT_SEC_CMPLT) ∧
      commands r.out = [] ∧
      handler_entries r.out = [] ∧
      r.out = [Effect.DBG_rap_handle_hci_events, Effect.DBG_default_case,
        Effect.DBG_received_event opcode_name_t.UNKNOWN (read_u8 (mem [0x2D, 0x00]) 0)] :=
  ⟨by decide, by decide,
    rap_handle_hci_events_unknown_code env0 (mem [0x2D, 0x00]) 2
      (some (ctx0 CS_WAIT_SEC_CMPLT)) (by decide) (by decide)⟩

/-! ## Remote capabilities complete with status 0 -/

theorem commands_rap_send_hci_def_settings_command (env : Env) (hci : Nat)
    (ev : hci_evt_le_cs_read_rmt_supp_cap_complete) :
    commands (rap_send_hci_def_settings_command env hci ev) =
      [Effect.bt_hci_send hci opcode_t.HCI_OP_LE_CS_SET_DEFAULT_SETTINGS
        { handle := ev.handle
          role_enable := env.btd_opts.role
          cs_sync_ant_sel := env.btd_opts.cs_sync_ant_sel
          max_tx_power := env.btd_opts.max_tx_power }
        callback_t.rap_def_settings_done_cb user_data_t.NULL] := by
  have hh : (if ev.handle ≠ 0 then ev.handle else 0) = ev.handle := by
    by_cases h : ev.handle = 0
    · simp [h]
    · simp [h]
  simp only [rap_send_hci_def_settings_command, hh]
  split_ifs <;> rfl

theorem rd_rmt_ok (env : Env) (data : Nat → Nat) (size : Nat) (s : cs_state_machine_t)
    (h : status data = 0) :
    ∃ r, rap_rd_rmt_supp_cap_cmplt_evt env data size (some s) = some r ∧
      r.sm = some { s with current_state := CS_INIT } ∧
      commands r.out =
        [Effect.bt_hci_send s.hci opcode_t.HCI_OP_LE_CS_SET_DEFAULT_SETTINGS
          { handle := (ev_of_data data).handle
            role_enable := env.btd_opts.role
            cs_sync_ant_sel := env.btd_opts.cs_sync_ant_sel
            max_tx_power := env.btd_opts.max_tx_power }
          callback_t.rap_def_settings_done_cb user_data_t.NULL] ∧
      registered_user_data r.out = some user_data_t.NULL := by
  have h1 : (ev_of_data data).status = 0 := h
  refine ⟨_, by simp only [rap_rd_rmt_supp_cap_cmplt_evt, h1, if_true]; rfl, ?_, ?_, ?_⟩
  · exact cs_set_state_sm s CS_INIT
  · rw [commands_append, commands_append, commands_cs_set_state,
      commands_rap_send_hci_def_settings_command]
    rfl
  · rfl

/-- C10: a remote capabilities complete event with status 0 and connection handle
`h` (zero included), delivered to an initiator-role context in any state, returns
with the context in `CS_INIT` and with exactly one call of `bt_hci_send` among its
actions: the set-default-settings command on the context's transport, whose
`handle` field is `h`. -/
theorem remote_capabilities_complete_sends_default_settings (env : Env)
    (s : cs_state_machine_t) (e : hci_event) (h : Nat)
    (_hrole : s.initiator = true)
    (he : le_meta_event env.codes.HCI_EVT_LE_CS_READ_RMT_SUPP_CAP_COMPLETE 0 e)
    (hh : (ev_of_data (advance e.data)).handle = h) :
    ∃ r, rap_handle_hci_events env e.data e.size (some s) = some r ∧
      cs_get_current_state r.sm = CS_INIT ∧
      r.sm = some { s with current_state := CS_INIT } ∧
      commands r.out =
        [Effect.bt_hci_send s.hci opcode_t.HCI_OP_LE_CS_SET_DEFAULT_SETTINGS
          { handle := h
            role_enable := env.btd_opts.role
            cs_sync_ant_sel := env.btd_opts.cs_sync_ant_sel
            max_tx_power := env.btd_opts.max_tx_power }
          callback_t.rap_def_settings_done_cb user_data_t.NULL] := by
  obtain ⟨hsize, hc, hst⟩ := he
  obtain ⟨r, hr, hsm, hcmd, -⟩ := rd_rmt_ok env (advance e.data) ((e.size - 1) % 256) s hst
  refine ⟨dispatched opcode_name_t.HCI_EVT_LE_CS_READ_RMT_SUPP_CAP_COMPLETE
    (read_u8 e.data 0) r, ?_, ?_, ?_, ?_⟩
  · rw [dispatch_read_rmt_supp_cap env e.data e.size (some s) hsize hc, hr]; rfl
  · rw [sm_dispatched, hsm]; rfl
  · rw [sm_dispatched]; exact hsm
  · rw [commands_dispatched, hcmd, hh]

/-- C10, scenario A: an initiator-role context in `CS_UNSPECIFIED` receives remote
capabilities complete with status 0 and handle 0x0040. -/
theorem remote_capabilities_complete_sends_default_settings_witness :
    ({ current_state := CS_UNSPECIFIED, hci := 7, initiator := true,
       procedure_active := false } : cs_state_machine_t).initiator = true ∧
    le_meta_event env0.codes.HCI_EVT_LE_CS_READ_RMT_SUPP_CAP_COMPLETE 0
      { data := mem [0x2C, 0x00, 0x40, 0x00], size := 4 } ∧
    (ev_of_data (advance (mem [0x2C, 0x00, 0x40, 0x00]))).handle = 0x0040 ∧
    ∃ r, rap_handle_hci_events env0 (mem [0x2C, 0x00, 0x40, 0x00]) 4
        (some { current_state := CS_UNSPECIFIED, hci := 7, initiator := true,
                procedure_active := false }) = some r ∧
      cs_get_current_state r.sm = CS_INIT ∧
      r.sm = some { current_state := CS_INIT, hci := 7, initiator := true,
                    procedure_active := false } ∧
      commands r.out =
        [Effect.bt_hci_send 7 opcode_t.HCI_OP_LE_CS_SET_DEFAULT_SETTINGS
          { handle := 0x0040, role_enable := 3, cs_sync_ant_sel := 1, max_tx_power := 20 }
          callback_t.rap_def_settings_done_cb user_data_t.NULL] :=
  ⟨rfl, by decide, by decide,
    remote_capabilities_complete_sends_default_settings env0
      { current_state := CS_UNSPECIFIED, hci := 7, initiator := true,
        procedure_active := false }
      { data := mem [0x2C, 0x00, 0x40, 0x00], size := 4 } 0x0040 rfl (by decide) (by decide)⟩

/-! ## The canonical order and the `procedure_active` flag -/

theorem handle_rd_rmt_ok (env : Env) (e : hci_event) (s : cs_state_machine_t)
    (he : le_meta_event env.codes.HCI_EVT_LE_CS_READ_RMT_SUPP_CAP_COMPLETE 0 e) :
    ∃ r, rap_handle_hci_events env e.data e.size (some s) = some r ∧
      r.sm = some { s with current_state := CS_INIT } ∧
      registered_user_data r.out = some user_data_t.NULL := by
  obtain ⟨hsize, hc, hst⟩ := he
  have h1 : (ev_of_data (advance e.data)).status = 0 := hst
  refine ⟨dispatched opcode_name_t.HCI_EVT_LE_CS_READ_RMT_SUPP_CAP_COMPLETE
    (read_u8 e.data 0)
    { sm := (cs_set_state (some s) CS_INIT).sm
      out := [Effect.DBG_remote_capabilities_complete 0] ++
        rap_send_hci_def_settings_command env s.hci (ev_of_data (advance e.data)) ++
        (cs_set_state (some s) CS_INIT).out }, ?_, ?_, ?_⟩
  · rw [dispatch_read_rmt_supp_cap env e.data e.size (some s) hsize hc]
    simp only [rap_rd_rmt_supp_cap_cmplt_evt, h1, if_true, Option.map_some']
  · rw [sm_dispatched]; exact cs_set_state_sm s CS_INIT
  · rfl

theorem handle_sec_enable_ok (env : Env) (hd : env.codes.distinct) (e : hci_event)
    (s : cs_state_machine_t)
    (he : le_meta_event env.codes.HCI_EVT_LE_CS_SECURITY_ENABLE_COMPLETE 0 e) :
    ∃ r, rap_handle_hci_events env e.data e.size (some s) = some r ∧
      r.sm = some { s with current_state := CS_WAIT_CONFIG_CMPLT } := by
  obtain ⟨hsize, hc, hst⟩ := he
  refine ⟨_, dispatch_security_enable env hd e.data e.size (some s) hsize hc, ?_⟩
  rw [sm_dispatched]; exact sec_enable_ok _ _ s hst

theorem handle_config_ok (env : Env) (hd : env.codes.distinct) (e : hci_event)
    (s : cs_state_machine_t)
    (he : le_meta_event env.codes.HCI_EVT_LE_CS_CONFIG_COMPLETE 0 e) :
    ∃ r, rap_handle_hci_events env e.data e.size (some s) = some r ∧
      r.sm = some { s with current_state := CS_WAIT_PROC_CMPLT } := by
  obtain ⟨hsize, hc, hst⟩ := he
  refine ⟨_, dispatch_config env hd e.data e.size (some s) hsize hc, ?_⟩
  rw [sm_dispatched]; exact config_ok _ _ s hst

theorem handle_proc_enable_ok (env : Env) (hd : env.codes.distinct) (e : hci_event)
    (s : cs_state_machine_t)
    (he : le_meta_event env.codes.HCI_EVT_LE_CS_PROCEDURE_ENABLE_COMPLETE 0 e) :
    ∃ r, rap_handle_hci_events env e.data e.size (some s) = some r ∧
      r.sm = some { s with current_state := CS_STARTED } := by
  obtain ⟨hsize, hc, hst⟩ := he
  refine ⟨_, dispatch_procedure_enable env hd e.data e.size (some s) hsize hc, ?_⟩
  rw [sm_dispatched]; exact proc_enable_ok _ _ s hst

/-- C1, what the code does: from a context set up by `cs_state_machine_init`, the
five completions of the canonical order, each with status 0, are all handled and
leave the context in `CS_STARTED`, but `cs_is_procedure_active` then returns
false, not true: nothing ever writes `procedure_active` after the init. -/
theorem canonical_run_started_but_not_active (env : Env) (hd : env.codes.distinct)
    (old : cs_state_machine_t) (hci : Nat) (caps settings sec config proc : hci_event)
    (h1 : le_meta_event env.codes.HCI_EVT_LE_CS_READ_RMT_SUPP_CAP_COMPLETE 0 caps)
    (_h2 : status settings.data = 0)
    (h3 : le_meta_event env.codes.HCI_EVT_LE_CS_SECURITY_ENABLE_COMPLETE 0 sec)
    (h4 : le_meta_event env.codes.HCI_EVT_LE_CS_CONFIG_COMPLETE 0 config)
    (h5 : le_meta_event env.codes.HCI_EVT_LE_CS_PROCEDURE_ENABLE_COMPLETE 0 proc) :
    ∃ r, canonical_run env (cs_state_machine_init (some old) hci).sm
        caps settings sec config proc = some r ∧
      cs_get_current_state r.sm = CS_STARTED ∧
      cs_is_procedure_active r.sm = false := by
  obtain ⟨r1, e1, s1, u1⟩ := handle_rd_rmt_ok env caps
    { current_state := CS_UNSPECIFIED, hci := hci, initiator := false,
      procedure_active := false } h1
  obtain ⟨r3, e3, s3⟩ := handle_sec_enable_ok env hd sec
    { current_state := CS_INIT, hci := hci, initiator := false,
      procedure_active := false } h3
  obtain ⟨r4, e4, s4⟩ := handle_config_ok env hd config
    { current_state := CS_WAIT_CONFIG_CMPLT, hci := hci, initiator := false,
      procedure_active := false } h4
  obtain ⟨r5, e5, s5⟩ := handle_proc_enable_ok env hd proc
    { current_state := CS_WAIT_PROC_CMPLT, hci := hci, initiator := false,
      procedure_active := false } h5
  refine ⟨{ sm := r5.sm
            out := r1.out ++ (on_complete user_data_t.NULL settings.data settings.size
              r1.sm).out ++ r3.out ++ r4.out ++ r5.out }, ?_, ?_, ?_⟩
  · simp only [canonical_run, cs_state_machine_init, e1, Option.some_bind, u1, on_complete,
      s1, e3, s3, e4, s4, e5, Option.map_some']
  · rw [s5]; rfl
  · rw [s5]; rfl

/-- C1 at a concrete input: transport at address 9, handle 0x0040, every status
byte 0. -/
theorem canonical_run_started_but_not_active_witness :
    env0.codes.distinct ∧
    le_meta_event env0.codes.HCI_EVT_LE_CS_READ_RMT_SUPP_CAP_COMPLETE 0
      { data := mem [0x2C, 0x00, 0x40, 0x00], size := 4 } ∧
    status (mem [0x00]) = 0 ∧
    le_meta_event env0.codes.HCI_EVT_LE_CS_SECURITY_ENABLE_COMPLETE 0
      { data := mem [0x2E, 0x00], size := 2 } ∧
    le_meta_event env0.codes.HCI_EVT_LE_CS_CONFIG_COMPLETE 0
      { data := mem [0x2F, 0x00], size := 2 } ∧
    le_meta_event env0.codes.HCI_EVT_LE_CS_PROCEDURE_ENABLE_COMPLETE 0
      { data := mem [0x30, 0x00], size := 2 } ∧
    ∃ r, canonical_run env0 (cs_state_machine_init (some (ctx0 CS_HOLD)) 9).sm
        { data := mem [0x2C, 0x00, 0x40, 0x00], size := 4 }
        { data := mem [0x00], size := 1 }
        { data := mem [0x2E, 0x00], size := 2 }
        { data := mem [0x2F, 0x00], size := 2 }
        { data := mem [0x30, 0x00], size := 2 } = some r ∧
      cs_get_current_state r.sm = CS_STARTED ∧
      cs_is_procedure_active r.sm = false :=
  ⟨by decide, by decide, by decide, by decide, by decide, by decide,
    canonical_run_started_but_not_active env0 (by decide) (ctx0 CS_HOLD) 9
      { data := mem [0x2C, 0x00, 0x40, 0x00], size := 4 }
      { data := mem [0x00], size := 1 }
      { data := mem [0x2E, 0x00], size := 2 }
      { data := mem [0x2F, 0x00], size := 2 }
      { data := mem [0x30, 0x00], size := 2 }
      (by decide) (by decide) (by decide) (by decide) (by decide)⟩

/-- C2, what the code does: a context set up by `cs_state_machine_init` and then
given a procedure enable complete event with status 0 through
`rap_handle_hci_events` is reachable, is in `CS_STARTED`, and has
`procedure_active` false; so the equivalence of the flag with `CS_STARTED` fails
there. -/
theorem started_reachable_with_procedure_inactive :
    ∃ s, Reachable env0 s ∧ s.current_state = CS_STARTED ∧ s.procedure_active = false ∧
      ¬ (s.procedure_active = true ↔ s.current_state = CS_STARTED) := by
  refine ⟨ctx0 CS_STARTED, ?_, rfl, rfl, by decide⟩
  have hinit : Reachable env0 (ctx0 CS_UNSPECIFIED) :=
    Reachable.init (ctx0 CS_HOLD) 7 _ rfl
  exact Reachable.event _ (mem [0x30, 0x00]) 2
    { sm := some (ctx0 CS_STARTED)
      out := [Effect.DBG_rap_handle_hci_events, Effect.DBG_procedure_enable_complete 1,
        Effect.DBG_state_transition CS_UNSPECIFIED CS_STARTED,
        Effect.DBG_received_event opcode_name_t.HCI_EVT_LE_CS_PROCEDURE_ENABLE_COMPLETE 0x30] }
    _ hinit (by decide) rfl

/-! ## Events that end before the status byte -/

theorem handler_entries_cs_set_state (sm : Option cs_state_machine_t) (n : cs_state_t) :
    handler_entries (cs_set_state sm n).out = [] := by
  cases sm with
  | none => rfl
  | some s =>
    simp only [cs_set_state]
    split_ifs <;> rfl

theorem malformed_reports_append (a b : List Effect) :
    malformed_reports (a ++ b) = malformed_reports a ++ malformed_reports b := by
  simp [malformed_reports]

theorem handler_entries_append (a b : List Effect) :
    handler_entries (a ++ b) = handler_entries a ++ handler_entries b := by
  simp [handler_entries]

theorem malformed_reports_dispatched (name : opcode_name_t) (subevent : Nat) (r : Res) :
    malformed_reports (dispatched name subevent r).out = malformed_reports r.out := by
  simp [dispatched, malformed_reports, Effect.is_malformed_report]

theorem handler_entries_dispatched (name : opcode_name_t) (subevent : Nat) (r : Res) :
    handler_entries (dispatched name subevent r).out = handler_entries r.out := by
  simp [dispatched, handler_entries, Effect.is_handler_entry]

theorem rd_rmt_never_reports_malformed (env : Env) (data : Nat → Nat) (size : Nat)
    (s : cs_state_machine_t) :
    ∃ r, rap_rd_rmt_supp_cap_cmplt_evt env data size (some s) = some r ∧
      malformed_reports r.out = [] ∧ (handler_entries r.out).length = 1 := by
  by_cases h : (ev_of_data data).status = 0
  · refine ⟨_, by simp only [rap_rd_rmt_supp_cap_cmplt_evt, h, if_true]; rfl, ?_, ?_⟩
    · rw [malformed_reports_append, malformed_reports_append, malformed_reports_cs_set_state]
      simp only [rap_send_hci_def_settings_command]
      split_ifs <;> rfl
    · rw [handler_entries_append, handler_entries_append, handler_entries_cs_set_state]
      simp only [rap_send_hci_def_settings_command]
      split_ifs <;> rfl
  · refine ⟨_, by simp only [rap_rd_rmt_supp_cap_cmplt_evt, h, if_false]; rfl, ?_, ?_⟩
    · rw [malformed_reports_append, malformed_reports_cs_set_state]; rfl
    · rw [handler_entries_append, handler_entries_cs_set_state]; rfl

theorem sec_enable_never_reports_malformed (data : Nat → Nat) (size : Nat)
    (sm : Option cs_state_machine_t) :
    malformed_reports (rap_cs_sec_enable_cmplt_evt data size sm).out = [] ∧
      (handler_entries (rap_cs_sec_enable_cmplt_evt data size sm).out).length = 1 := by
  simp only [rap_cs_sec_enable_cmplt_evt]
  split_ifs
  · simp only [malformed_reports_append, handler_entries_append,
      malformed_reports_cs_set_state, handler_entries_cs_set_state]
    exact ⟨rfl, rfl⟩
  · simp only [malformed_reports_append, handler_entries_append,
      malformed_reports_cs_set_state, handler_entries_cs_set_state]
    exact ⟨rfl, rfl⟩

theorem config_never_reports_malformed (data : Nat → Nat) (size : Nat)
    (sm : Option cs_state_machine_t) :
    malformed_reports (rap_cs_config_cmplt_evt data size sm).out = [] ∧
      (handler_entries (rap_cs_config_cmplt_evt data size sm).out).length = 1 := by
  simp only [rap_cs_config_cmplt_evt]
  split_ifs
  · simp only [malformed_reports_append, handler_entries_append,
      malformed_reports_cs_set_state, handler_entries_cs_set_state]
    exact ⟨rfl, rfl⟩
  · simp only [malformed_reports_append, handler_entries_append,
      malformed_reports_cs_set_state, handler_entries_cs_set_state]
    exact ⟨rfl, rfl⟩

theorem proc_enable_never_reports_malformed (data : Nat → Nat) (size : Nat)
    (sm : Option cs_state_machine_t) :
    malformed_reports (rap_cs_proc_enable_cmplt_evt data size sm).out = [] ∧
      (handler_entries (rap_cs_proc_enable_cmplt_evt data size sm).out).length = 1 := by
  simp only [rap_cs_proc_enable_cmplt_evt]
  split_ifs
  · simp only [malformed_reports_append, handler_entries_append,
      malformed_reports_cs_set_state, handler_entries_cs_set_state]
    exact ⟨rfl, rfl⟩
  · simp only [malformed_reports_append, handler_entries_append,
      malformed_reports_cs_set_state, handler_entries_cs_set_state]
    exact ⟨rfl, rfl⟩

theorem subevt_result_never_reports_malformed (data : Nat → Nat) (size : Nat)
    (sm : Option cs_state_machine_t) :
    malformed_reports (rap_cs_subevt_result_evt data size sm).out = [] ∧
      (handler_entries (rap_cs_subevt_result_evt data size sm).out).length = 1 := by
  simp only [rap_cs_subevt_result_evt]
  split_ifs
  · simp only [malformed_reports_append, handler_entries_append,
      malformed_reports_cs_set_state, handler_entries_cs_set_state]
    exact ⟨rfl, rfl⟩
  · exact ⟨rfl, rfl⟩
  · exact ⟨rfl, rfl⟩

theorem subevt_result_cont_never_reports_malformed (data : Nat → Nat) (size : Nat)
    (sm : Option cs_state_machine_t) :
    malformed_reports (rap_cs_subevt_result_cont_evt data size sm).out = [] ∧
      (handler_entries (rap_cs_subevt_result_cont_evt data size sm).out).length = 1 := by
  simp only [rap_cs_subevt_result_cont_evt]
  split_ifs
  · exact ⟨rfl, rfl⟩
  · exact ⟨rfl, rfl⟩

/-- C7, what the code does: an LE Meta event of one byte that holds only a
handled subevent code reaches that code's handler with a payload length of 0.
Whatever the memory after the event holds, the handler is entered, acts on the
byte it finds at the status position, and no malformed-event error is reported:
no handler looks at its `size` argument except to print it. -/
theorem one_byte_event_is_handled_not_rejected (env : Env) (hd : env.codes.distinct)
    (data : Nat → Nat) (s : cs_state_machine_t)
    (hcode : read_u8 data 0 ∈ env.codes.toList) :
    ∃ r, rap_handle_hci_events env data 1 (some s) = some r ∧
      malformed_reports r.out = [] ∧
      (handler_entries r.out).length = 1 := by
  simp only [le_cs_subevent_codes.toList, List.mem_cons, List.mem_singleton,
    List.not_mem_nil, or_false] at hcode
  rcases hcode with h | h | h | h | h | h
  · obtain ⟨r, hr, hm, hh⟩ := rd_rmt_never_reports_malformed env (advance data) ((1 - 1) % 256) s
    refine ⟨dispatched opcode_name_t.HCI_EVT_LE_CS_READ_RMT_SUPP_CAP_COMPLETE
      (read_u8 data 0) r, ?_, ?_, ?_⟩
    · rw [dispatch_read_rmt_supp_cap env data 1 (some s) (le_refl 1) h, hr]; rfl
    · rw [malformed_reports_dispatched]; exact hm
    · rw [handler_entries_dispatched]; exact hh
  · obtain ⟨hm, hh⟩ := sec_enable_never_reports_malformed (advance data) ((1 - 1) % 256) (some s)
    refine ⟨_, dispatch_security_enable env hd data 1 (some s) (le_refl 1) h, ?_, ?_⟩
    · rw [malformed_reports_dispatched]; exact hm
    · rw [handler_entries_dispatched]; exact hh
  · obtain ⟨hm, hh⟩ := config_never_reports_malformed (advance data) ((1 - 1) % 256) (some s)
    refine ⟨_, dispatch_config env hd data 1 (some s) (le_refl 1) h, ?_, ?_⟩
    · rw [malformed_reports_dispatched]; exact hm
    · rw [handler_entries_dispatched]; exact hh
  · obtain ⟨hm, hh⟩ := proc_enable_never_reports_malformed (advance data) ((1 - 1) % 256) (some s)
    refine ⟨_, dispatch_procedure_enable env hd data 1 (some s) (le_refl 1) h, ?_, ?_⟩
    · rw [malformed_reports_dispatched]; exact hm
    · rw [handler_entries_dispatched]; exact hh
  · obtain ⟨hm, hh⟩ := subevt_result_never_reports_malformed (advance data) ((1 - 1) % 256) (some s)
    refine ⟨_, dispatch_subevent_result env hd data 1 (some s) (le_refl 1) h, ?_, ?_⟩
    · rw [malformed_reports_dispatched]; exact hm
    · rw [handler_entries_dispatched]; exact hh
  · obtain ⟨hm, hh⟩ :=
      subevt_result_cont_never_reports_malformed (advance data) ((1 - 1) % 256) (some s)
    refine ⟨_, dispatch_subevent_result_continue env hd data 1 (some s) (le_refl 1) h, ?_, ?_⟩
    · rw [malformed_reports_dispatched]; exact hm
    · rw [handler_entries_dispatched]; exact hh

/-- C7 at the failing input: the single byte 0x2E (security enable complete),
followed in memory by a zero byte, delivered to a context in `CS_WAIT_SEC_CMPLT`:
no malformed-event report, and the context moves to `CS_WAIT_CONFIG_CMPLT`. -/
theorem one_byte_event_is_handled_not_rejected_witness :
    env0.codes.distinct ∧
    read_u8 (mem [0x2E]) 0 ∈ env0.codes.toList ∧
    (∃ r, rap_handle_hci_events env0 (mem [0x2E]) 1 (some (ctx0 CS_WAIT_SEC_CMPLT)) = some r ∧
      malformed_reports r.out = [] ∧
      (handler_entries r.out).length = 1) ∧
    rap_handle_hci_events env0 (mem [0x2E]) 1 (some (ctx0 CS_WAIT_SEC_CMPLT)) =
      some { sm := some (ctx0 CS_WAIT_CONFIG_CMPLT)
             out := [Effect.DBG_rap_handle_hci_events,
               Effect.DBG_security_enable_complete 0,
               Effect.DBG_state_transition CS_WAIT_SEC_CMPLT CS_WAIT_CONFIG_CMPLT,
               Effect.DBG_waiting_for_config_complete,
               Effect.DBG_received_event
                 opcode_name_t.HCI_EVT_LE_CS_SECURITY_ENABLE_COMPLETE 0x2E] } :=
  ⟨by decide, by decide,
    one_byte_event_is_handled_not_rejected env0 (by decide) (mem [0x2E])
      (ctx0 CS_WAIT_SEC_CMPLT) (by decide),
    by decide⟩

/-! ## What a fresh context holds and which fields ever change -/

/-- C18: `cs_state_machine_init(sm, hci)` on a non-null context, whatever it held
before, leaves `current_state = CS_UNSPECIFIED`, `hci` equal to the handle passed
in, `initiator = false` and `procedure_active = false`; right after it
`cs_get_current_state` returns `CS_UNSPECIFIED` and `cs_is_procedure_active`
returns false. -/
theorem cs_state_machine_init_fields (old : cs_state_machine_t) (hci : Nat) :
    (cs_state_machine_init (some old) hci).sm =
      some { current_state := CS_UNSPECIFIED, hci := hci, initiator := false,
             procedure_active := false } ∧
    cs_get_current_state (cs_state_machine_init (some old) hci).sm = CS_UNSPECIFIED ∧
    cs_is_procedure_active (cs_state_machine_init (some old) hci).sm = false :=
  ⟨rfl, rfl, rfl⟩

theorem sm_sec_enable (data : Nat → Nat) (size : Nat) (s : cs_state_machine_t) :
    ∃ c, (rap_cs_sec_enable_cmplt_evt data size (some s)).sm =
      some { s with current_state := c } := by
  simp only [rap_cs_sec_enable_cmplt_evt]
  split_ifs
  · exact ⟨_, cs_set_state_sm s _⟩
  · exact ⟨_, cs_set_state_sm s _⟩

theorem sm_config (data : Nat → Nat) (size : Nat) (s : cs_state_machine_t) :
    ∃ c, (rap_cs_config_cmplt_evt data size (some s)).sm =
      some { s with current_state := c } := by
  simp only [rap_cs_config_cmplt_evt]
  split_ifs
  · exact ⟨_, cs_set_state_sm s _⟩
  · exact ⟨_, cs_set_state_sm s _⟩

theorem sm_proc_enable (data : Nat → Nat) (size : Nat) (s : cs_state_machine_t) :
    ∃ c, (rap_cs_proc_enable_cmplt_evt data size (some s)).sm =
      some { s with current_state := c } := by
  simp only [rap_cs_proc_enable_cmplt_evt]
  split_ifs
  · exact ⟨_, cs_set_state_sm s _⟩
  · exact ⟨_, cs_set_state_sm s _⟩

theorem sm_subevt_result (data : Nat → Nat) (size : Nat) (s : cs_state_machine_t) :
    ∃ c, (rap_cs_subevt_result_evt data size (some s)).sm =
      some { s with current_state := c } := by
  simp only [rap_cs_subevt_result_evt]
  split_ifs
  · exact ⟨_, cs_set_state_sm s _⟩
  · exact ⟨s.current_state, rfl⟩
  · exact ⟨s.current_state, rfl⟩

theorem sm_subevt_result_cont (data : Nat → Nat) (size : Nat) (s : cs_state_machine_t) :
    (rap_cs_subevt_result_cont_evt data size (some s)).sm = some s := by
  simp only [rap_cs_subevt_result_cont_evt]
  split_ifs <;> rfl

theorem sm_rd_rmt (env : Env) (data : Nat → Nat) (size : Nat) (s : cs_state_machine_t) :
    ∃ r c, rap_rd_rmt_supp_cap_cmplt_evt env data size (some s) = some r ∧
      r.sm = some { s with current_state := c } := by
  by_cases h : (ev_of_data data).status = 0
  · simp only [rap_rd_rmt_supp_cap_cmplt_evt, h, if_true]
    exact ⟨_, CS_INIT, rfl, cs_set_state_sm s CS_INIT⟩
  · simp only [rap_rd_rmt_supp_cap_cmplt_evt, h, if_false]
    exact ⟨_, CS_STOPPED, rfl, cs_set_state_sm s CS_STOPPED⟩

/-- For a non-null context `rap_handle_hci_events` always returns, and the context
afterwards differs from the one before in `current_state` at most. -/
theorem handle_changes_state_only (env : Env) (data : Nat → Nat) (size : Nat)
    (s : cs_state_machine_t) :
    ∃ r c, rap_handle_hci_events env data size (some s) = some r ∧
      r.sm = some { s with current_state := c } := by
  unfold rap_handle_hci_events
  simp only []
  split_ifs
  · exact ⟨_, s.current_state, rfl, rfl⟩
  · obtain ⟨r, c, hr, hc⟩ := sm_rd_rmt env (advance data) ((size - 1) % 256) s
    rw [hr]
    exact ⟨_, c, rfl, hc⟩
  · obtain ⟨c, hc⟩ := sm_sec_enable (advance data) ((size - 1) % 256) s
    exact ⟨_, c, rfl, hc⟩
  · obtain ⟨c, hc⟩ := sm_config (advance data) ((size - 1) % 256) s
    exact ⟨_, c, rfl, hc⟩
  · obtain ⟨c, hc⟩ := sm_proc_enable (advance data) ((size - 1) % 256) s
    exact ⟨_, c, rfl, hc⟩
  · obtain ⟨c, hc⟩ := sm_subevt_result (advance data) ((size - 1) % 256) s
    exact ⟨_, c, rfl, hc⟩
  · exact ⟨_, s.current_state, rfl, sm_subevt_result_cont _ _ s⟩
  · exact ⟨_, s.current_state, rfl, rfl⟩

theorem reachable_flags (env : Env) (s : cs_state_machine_t) (hs : Reachable env s) :
    s.initiator = false ∧ s.procedure_active = false := by
  induction hs with
  | init old hci s h =>
    have h1 := (Option.some.inj h).symm
    rw [h1]; exact ⟨rfl, rfl⟩
  | set_state s n t _ h ih =>
    rw [cs_set_state_sm] at h
    have h1 := (Option.some.inj h).symm
    rw [h1]; exact ih
  | event s data size r t _ h ht ih =>
    obtain ⟨r1, c, hr, hc⟩ := handle_changes_state_only env data size s
    rw [h] at hr
    have hr1 : r = r1 := Option.some.inj hr
    rw [hr1, hc] at ht
    have h1 := (Option.some.inj ht).symm
    rw [h1]; exact ih

/-- C19: from any context `s`, `cs_set_state` with any new state and
`rap_handle_hci_events` with any event both return with `hci`, `initiator` and
`procedure_active` exactly as in `s` (only `current_state` may differ); hence,
when `s` is reachable from `cs_state_machine_init`, `initiator` is false and
`cs_is_procedure_active` returns false. -/
theorem only_current_state_changes (env : Env) (s : cs_state_machine_t) :
    (∀ n, ∃ t, (cs_set_state (some s) n).sm = some t ∧
      t.hci = s.hci ∧ t.initiator = s.initiator ∧
      t.procedure_active = s.procedure_active) ∧
    (∀ data size, ∃ r t, rap_handle_hci_events env data size (some s) = some r ∧
      r.sm = some t ∧ t.hci = s.hci ∧ t.initiator = s.initiator ∧
      t.procedure_active = s.procedure_active) ∧
    (Reachable env s →
      s.initiator = false ∧ s.procedure_active = false ∧
      cs_is_procedure_active (some s) = false) := by
  refine ⟨?_, ?_, ?_⟩
  · intro n
    exact ⟨_, cs_set_state_sm s n, rfl, rfl, rfl⟩
  · intro data size
    obtain ⟨r, c, hr, hc⟩ := handle_changes_state_only env data size s
    exact ⟨r, _, hr, hc, rfl, rfl, rfl⟩
  · intro hs
    exact ⟨(reachable_flags env s hs).1, (reachable_flags env s hs).2,
      (reachable_flags env s hs).2⟩

/-- C19 at a concrete input: the context that a security enable complete event
with status 0 leaves behind when it is delivered right after
`cs_state_machine_init` with the transport at address 7. -/
theorem only_current_state_changes_witness :
    Reachable env0 (ctx0 CS_WAIT_CONFIG_CMPLT) ∧
    (∀ n, ∃ t, (cs_set_state (some (ctx0 CS_WAIT_CONFIG_CMPLT)) n).sm = some t ∧
      t.hci = 7 ∧ t.initiator = false ∧ t.procedure_active = false) ∧
    (∀ data size, ∃ r t,
      rap_handle_hci_events env0 data size (some (ctx0 CS_WAIT_CONFIG_CMPLT)) = some r ∧
      r.sm = some t ∧ t.hci = 7 ∧ t.initiator = false ∧ t.procedure_active = false) ∧
    (ctx0 CS_WAIT_CONFIG_CMPLT).initiator = false ∧
    (ctx0 CS_WAIT_CONFIG_CMPLT).procedure_active = false ∧
    cs_is_procedure_active (some (ctx0 CS_WAIT_CONFIG_CMPLT)) = false :=
  have hreach : Reachable env0 (ctx0 CS_WAIT_CONFIG_CMPLT) :=
    Reachable.event (ctx0 CS_UNSPECIFIED) (mem [0x2E, 0x00]) 2
      { sm := some (ctx0 CS_WAIT_CONFIG_CMPLT)
        out := [Effect.DBG_rap_handle_hci_events, Effect.DBG_security_enable_complete 1,
          Effect.DBG_state_transition CS_UNSPECIFIED CS_WAIT_CONFIG_CMPLT,
          Effect.DBG_waiting_for_config_complete,
          Effect.DBG_received_event
            opcode_name_t.HCI_EVT_LE_CS_SECURITY_ENABLE_COMPLETE 0x2E] }
      _ (Reachable.init (ctx0 CS_HOLD) 7 _ rfl) (by decide) rfl
  have h := only_current_state_changes env0 (ctx0 CS_WAIT_CONFIG_CMPLT)
  ⟨hreach, h.1, h.2.1, h.2.2 hreach⟩

/-! ## Subevent result continue -/

theorem commands_subevt_result_cont (data : Nat → Nat) (size : Nat)
    (sm : Option cs_state_machine_t) :
    commands (rap_cs_subevt_result_cont_evt data size sm).out = [] := by
  simp only [rap_cs_subevt_result_cont_evt]
  split_ifs <;> rfl

/-- C20: a subevent result continue event with any status byte `st` (0x0F
included), delivered to a context in any state, returns with every field of the
context as before and without a call of `bt_hci_send`; the subevent result event
with status 0x0F, delivered to the same context when it is in `CS_STARTED`, is the
one that stops it. -/
theorem subevent_result_continue_changes_nothing (env : Env) (hd : env.codes.distinct)
    (s : cs_state_machine_t) (e e2 : hci_event) (st : Nat)
    (he : le_meta_event env.codes.HCI_EVT_LE_CS_SUBEVENT_RESULT_CONTINUE st e)
    (he2 : le_meta_event env.codes.HCI_EVT_LE_CS_SUBEVENT_RESULT 0x0F e2) :
    (∃ r, rap_handle_hci_events env e.data e.size (some s) = some r ∧
      r.sm = some s ∧ commands r.out = []) ∧
    (∃ r2, rap_handle_hci_events env e2.data e2.size
        (some { s with current_state := CS_STARTED }) = some r2 ∧
      cs_get_current_state r2.sm = CS_STOPPED) := by
  obtain ⟨hsize, hc, -⟩ := he
  constructor
  · refine ⟨_, dispatch_subevent_result_continue env hd e.data e.size (some s) hsize hc,
      ?_, ?_⟩
    · rw [sm_dispatched]; exact sm_subevt_result_cont _ _ s
    · rw [commands_dispatched]; exact commands_subevt_result_cont _ _ _
  · obtain ⟨hsize2, hc2, hst2⟩ := he2
    have h0 : status (advance e2.data) ≠ 0 := by rw [hst2]; decide
    refine ⟨_, dispatch_subevent_result env hd e2.data e2.size _ hsize2 hc2, ?_⟩
    rw [sm_dispatched]
    simp only [rap_cs_subevt_result_evt, h0, hst2, if_true, ne_eq, not_false_eq_true]
    rw [cs_set_state_sm]; rfl

/-- C20 at a concrete input: status 0x0F on a subevent result continue event in
`CS_STARTED` changes nothing; the same status on a subevent result event stops
the context. -/
theorem subevent_result_continue_changes_nothing_witness :
    env0.codes.distinct ∧
    le_meta_event env0.codes.HCI_EVT_LE_CS_SUBEVENT_RESULT_CONTINUE 0x0F
      { data := mem [0x32, 0x0F], size := 2 } ∧
    le_meta_event env0.codes.HCI_EVT_LE_CS_SUBEVENT_RESULT 0x0F
      { data := mem [0x31, 0x0F], size := 2 } ∧
    (∃ r, rap_handle_hci_events env0 (mem [0x32, 0x0F]) 2 (some (ctx0 CS_STARTED)) = some r ∧
      r.sm = some (ctx0 CS_STARTED) ∧ commands r.out = []) ∧
    (∃ r2, rap_handle_hci_events env0 (mem [0x31, 0x0F]) 2 (some (ctx0 CS_STARTED)) = some r2 ∧
      cs_get_current_state r2.sm = CS_STOPPED) :=
  ⟨by decide, by decide, by decide,
    subevent_result_continue_changes_nothing env0 (by decide) (ctx0 CS_STARTED)
      { data := mem [0x32, 0x0F], size := 2 } { data := mem [0x31, 0x0F], size := 2 } 0x0F
      (by decide) (by decide)⟩

/-! ## Which events submit a command, and the role flag -/

theorem commands_sec_enable (data : Nat → Nat) (size : Nat)
    (sm : Option cs_state_machine_t) :
    commands (rap_cs_sec_enable_cmplt_evt data size sm).out = [] := by
  simp only [rap_cs_sec_enable_cmplt_evt]
  split_ifs
  · rw [commands_append, commands_append, commands_cs_set_state]; rfl
  · rw [commands_append, commands_cs_set_state]; rfl

theorem commands_config (data : Nat → Nat) (size : Nat)
    (sm : Option cs_state_machine_t) :
    commands (rap_cs_config_cmplt_evt data size sm).out = [] := by
  simp only [rap_cs_config_cmplt_evt]
  split_ifs
  · rw [commands_append, commands_append, commands_cs_set_state]; rfl
  · rw [commands_append, commands_cs_set_state]; rfl

theorem commands_proc_enable (data : Nat → Nat) (size : Nat)
    (sm : Option cs_state_machine_t) :
    commands (rap_cs_proc_enable_cmplt_evt data size sm).out = [] := by
  simp only [rap_cs_proc_enable_cmplt_evt]
  split_ifs
  · rw [commands_append, commands_cs_set_state]; rfl
  · rw [commands_append, commands_cs_set_state]; rfl

theorem commands_subevt_result (data : Nat → Nat) (size : Nat)
    (sm : Option cs_state_machine_t) :
    commands (rap_cs_subevt_result_evt data size sm).out = [] := by
  simp only [rap_cs_subevt_result_evt]
  split_ifs
  · rw [commands_append, commands_cs_set_state]; rfl
  · rfl
  · rfl

/-- The commands of one call of `rap_handle_hci_events` on a non-null context:
the set-default-settings command when the event is remote capabilities complete
with status 0, none otherwise. -/
theorem commands_handle (env : Env) (data : Nat → Nat) (size : Nat)
    (s : cs_state_machine_t) :
    ∃ r, rap_handle_hci_events env data size (some s) = some r ∧
      commands r.out =
        (if 1 ≤ size ∧
            read_u8 data 0 = env.codes.HCI_EVT_LE_CS_READ_RMT_SUPP_CAP_COMPLETE ∧
            status (advance data) = 0 then
          [Effect.bt_hci_send s.hci opcode_t.HCI_OP_LE_CS_SET_DEFAULT_SETTINGS
            { handle := (ev_of_data (advance data)).handle
              role_enable := env.btd_opts.role
              cs_sync_ant_sel := env.btd_opts.cs_sync_ant_sel
              max_tx_power := env.btd_opts.max_tx_power }
            callback_t.rap_def_settings_done_cb user_data_t.NULL]
        else []) := by
  by_cases hsize : size < 1
  · have h1 : ¬ 1 ≤ size := by omega
    refine ⟨{ sm := some s, out := [Effect.DBG_rap_handle_hci_events,
      Effect.error_le_meta_malformed_event size] }, ?_, ?_⟩
    · simp only [rap_handle_hci_events, hsize, if_true]
    · simp only [h1, false_and, if_false]; rfl
  · have hs1 : 1 ≤ size := by omega
    by_cases hc : read_u8 data 0 = env.codes.HCI_EVT_LE_CS_READ_RMT_SUPP_CAP_COMPLETE
    · by_cases hst : status (advance data) = 0
      · obtain ⟨r, hr, -, hcmd, -⟩ := rd_rmt_ok env (advance data) ((size - 1) % 256) s hst
        refine ⟨dispatched opcode_name_t.HCI_EVT_LE_CS_READ_RMT_SUPP_CAP_COMPLETE
          (read_u8 data 0) r, ?_, ?_⟩
        · rw [dispatch_read_rmt_supp_cap env data size (some s) hs1 hc, hr]; rfl
        · rw [commands_dispatched, hcmd]
          simp only [hs1, hc, hst, and_self, if_true]
      · obtain ⟨r, hr, -, hcmd⟩ := rd_rmt_failed env (advance data) ((size - 1) % 256) s hst
        refine ⟨dispatched opcode_name_t.HCI_EVT_LE_CS_READ_RMT_SUPP_CAP_COMPLETE
          (read_u8 data 0) r, ?_, ?_⟩
        · rw [dispatch_read_rmt_supp_cap env data size (some s) hs1 hc, hr]; rfl
        · rw [commands_dispatched, hcmd]
          simp only [hst, and_false, if_false]
    · simp only [hc, false_and, and_false, if_false]
      unfold rap_handle_hci_events
      simp only [hsize, hc, if_false]
      split_ifs
      · exact ⟨_, rfl, by rw [commands_dispatched]; exact commands_sec_enable _ _ _⟩
      · exact ⟨_, rfl, by rw [commands_dispatched]; exact commands_config _ _ _⟩
      · exact ⟨_, rfl, by rw [commands_dispatched]; exact commands_proc_enable _ _ _⟩
      · exact ⟨_, rfl, by rw [commands_dispatched]; exact commands_subevt_result _ _ _⟩
      · exact ⟨_, rfl, by rw [commands_dispatched]; exact commands_subevt_result_cont _ _ _⟩
      · exact ⟨_, rfl, rfl⟩

theorem cs_set_state_role (s : cs_state_machine_t) (b : Bool) (n : cs_state_t) :
    cs_set_state (some { s with initiator := b }) n =
      { sm := (cs_set_state (some s) n).sm.map fun t => { t with initiator := b }
        out := (cs_set_state (some s) n).out } := by
  simp only [cs_set_state]
  split_ifs <;> rfl

/-- No function reads `initiator`: with the flag set to `b` instead, one call of
`rap_handle_hci_events` performs the same actions and leaves the same context up
to that flag. -/
theorem handle_role_irrelevant (env : Env) (data : Nat → Nat) (size : Nat)
    (s : cs_state_machine_t) (b : Bool) :
    rap_handle_hci_events env data size (some { s with initiator := b }) =
      (rap_handle_hci_events env data size (some s)).map fun r =>
        { sm := r.sm.map fun t => { t with initiator := b }, out := r.out } := by
  unfold rap_handle_hci_events
  simp only []
  split_ifs
  · rfl
  · simp only [rap_rd_rmt_supp_cap_cmplt_evt, cs_set_state_role]
    split_ifs <;> rfl
  · simp only [rap_cs_sec_enable_cmplt_evt, cs_set_state_role]
    split_ifs <;> rfl
  · simp only [rap_cs_config_cmplt_evt, cs_set_state_role]
    split_ifs <;> rfl
  · simp only [rap_cs_proc_enable_cmplt_evt, cs_set_state_role]
    split_ifs <;> rfl
  · simp only [rap_cs_subevt_result_evt, cs_set_state_role]
    split_ifs <;> rfl
  · simp only [rap_cs_subevt_result_cont_evt]
    split_ifs <;> rfl
  · rfl


/-- C11 as stated fails: the context that `cs_state_machine_init` produces is in
the reflector role, and a remote capabilities complete event with status 0 and
handle 0x0040 makes `rap_handle_hci_events` call `bt_hci_send` with the
set-default-settings command. -/
theorem reflector_submits_default_settings_counterexample :
    ∃ s r, (cs_state_machine_init (some (ctx0 CS_HOLD)) 7).sm = some s ∧
      s.initiator = false ∧
      rap_handle_hci_events env0 (mem [0x2C, 0x00, 0x40, 0x00]) 4 (some s) = some r ∧
      commands r.out =
        [Effect.bt_hci_send 7 opcode_t.HCI_OP_LE_CS_SET_DEFAULT_SETTINGS
          { handle := 0x0040, role_enable := 3, cs_sync_ant_sel := 1, max_tx_power := 20 }
          callback_t.rap_def_settings_done_cb user_data_t.NULL] ∧
      ¬ commands r.out = [] :=
  ⟨ctx0 CS_UNSPECIFIED,
    { sm := some (ctx0 CS_INIT)
      out := [Effect.DBG_rap_handle_hci_events,
        Effect.DBG_remote_capabilities_complete 0,
        Effect.DBG_rap_send_hci_def_settings_command,
        Effect.DBG_sending_set_default_settings,
        Effect.bt_hci_send 7 opcode_t.HCI_OP_LE_CS_SET_DEFAULT_SETTINGS
          { handle := 0x0040, role_enable := 3, cs_sync_ant_sel := 1, max_tx_power := 20 }
          callback_t.rap_def_settings_done_cb user_data_t.NULL,
        Effect.DBG_sending_set_default_settings_status 1,
        Effect.DBG_state_transition CS_UNSPECIFIED CS_INIT,
        Effect.DBG_received_event
          opcode_name_t.HCI_EVT_LE_CS_READ_RMT_SUPP_CAP_COMPLETE 0x2C] },
    rfl, rfl, by decide, by decide, by decide⟩

/-- C11 as amended: for a reflector-role context and any event, one call of
`rap_handle_hci_events` returns with no call of `bt_hci_send` among its actions,
except for a remote capabilities complete event with status 0, which submits the
set-default-settings command whatever the role; and the call returns as well for
the same context in the initiator role, with the same resulting state. -/
theorem reflector_submits_only_default_settings (env : Env) (s : cs_state_machine_t)
    (data : Nat → Nat) (size : Nat) (_hrole : s.initiator = false) :
    ∃ r ri, rap_handle_hci_events env data size (some s) = some r ∧
      rap_handle_hci_events env data size (some { s with initiator := true }) = some ri ∧
      cs_get_current_state ri.sm = cs_get_current_state r.sm ∧
      commands r.out =
        (if 1 ≤ size ∧
            read_u8 data 0 = env.codes.HCI_EVT_LE_CS_READ_RMT_SUPP_CAP_COMPLETE ∧
            status (advance data) = 0 then
          [Effect.bt_hci_send s.hci opcode_t.HCI_OP_LE_CS_SET_DEFAULT_SETTINGS
            { handle := (ev_of_data (advance data)).handle
              role_enable := env.btd_opts.role
              cs_sync_ant_sel := env.btd_opts.cs_sync_ant_sel
              max_tx_power := env.btd_opts.max_tx_power }
            callback_t.rap_def_settings_done_cb user_data_t.NULL]
        else []) := by
  obtain ⟨r, hr, hcmd⟩ := commands_handle env data size s
  obtain ⟨r1, c, hr1, hc⟩ := handle_changes_state_only env data size s
  rw [hr] at hr1
  have hrr : r = r1 := Option.some.inj hr1
  refine ⟨r, { sm := r.sm.map fun t => { t with initiator := true }, out := r.out },
    hr, ?_, ?_, hcmd⟩
  · rw [handle_role_irrelevant, hr]; rfl
  · rw [hrr, hc]; rfl

/-- C11 as amended, at a concrete input: a reflector-role context in
`CS_WAIT_SEC_CMPLT` and a security enable complete event with status 0 (no
command, same state in both roles). -/
theorem reflector_submits_only_default_settings_witness :
    (ctx0 CS_WAIT_SEC_CMPLT).initiator = false ∧
    ∃ r ri, rap_handle_hci_events env0 (mem [0x2E, 0x00]) 2
        (some (ctx0 CS_WAIT_SEC_CMPLT)) = some r ∧
      rap_handle_hci_events env0 (mem [0x2E, 0x00]) 2
        (some (ctx_initiator CS_WAIT_SEC_CMPLT)) = some ri ∧
      cs_get_current_state ri.sm = cs_get_current_state r.sm ∧
      commands r.out = [] :=
  ⟨rfl, reflector_submits_only_default_settings env0 (ctx0 CS_WAIT_SEC_CMPLT)
    (mem [0x2E, 0x00]) 2 rfl⟩

/-! ## Completions that arrive outside their From state -/

/-- C14 as stated fails: a procedure enable complete event with status 0,
delivered to a context in `CS_STOPPED` (not the row's From state
`CS_WAIT_PROC_CMPLT`), changes the state, and the state it enters is
`CS_STARTED`. -/
theorem stale_completion_leaves_stopped_counterexample :
    ∃ r, rap_handle_hci_events env0 (mem [0x30, 0x00]) 2 (some (ctx0 CS_STOPPED)) = some r ∧
      cs_get_current_state r.sm = CS_STARTED ∧
      cs_get_current_state r.sm ≠ CS_STOPPED ∧
      (ctx0 CS_STOPPED).current_state ≠ CS_WAIT_PROC_CMPLT :=
  ⟨{ sm := some (ctx0 CS_STARTED)
     out := [Effect.DBG_rap_handle_hci_events, Effect.DBG_procedure_enable_complete 1,
       Effect.DBG_state_transition CS_STOPPED CS_STARTED,
       Effect.DBG_received_event
         opcode_name_t.HCI_EVT_LE_CS_PROCEDURE_ENABLE_COMPLETE 0x30] },
    by decide, by decide, by decide, by decide⟩

/-- C14 as amended: a security enable, config or procedure enable completion is
applied from every current state, the row's From state or any other: with status
0 the state afterwards is the row's To state (`CS_WAIT_CONFIG_CMPLT`,
`CS_WAIT_PROC_CMPLT`, `CS_STARTED` respectively), with any other status it is
`CS_STOPPED`, and no other field changes.  No handler looks at the current state,
so `CS_STARTED` is entered from any state, `CS_STOPPED` included. -/
theorem completion_applies_from_any_state (env : Env) (hd : env.codes.distinct)
    (s : cs_state_machine_t) (e : hci_event) (st : Nat) (row : Nat × cs_state_t)
    (hrow : row ∈ [
      (env.codes.HCI_EVT_LE_CS_SECURITY_ENABLE_COMPLETE, CS_WAIT_CONFIG_CMPLT),
      (env.codes.HCI_EVT_LE_CS_CONFIG_COMPLETE, CS_WAIT_PROC_CMPLT),
      (env.codes.HCI_EVT_LE_CS_PROCEDURE_ENABLE_COMPLETE, CS_STARTED)])
    (he : le_meta_event row.1 st e) :
    ∃ r, rap_handle_hci_events env e.data e.size (some s) = some r ∧
      cs_get_current_state r.sm = (if st = 0 then row.2 else CS_STOPPED) ∧
      r.sm = some { s with current_state := if st = 0 then row.2 else CS_STOPPED } := by
  obtain ⟨hsize, hc, hst⟩ := he
  simp only [List.mem_cons, List.mem_singleton, List.not_mem_nil, or_false] at hrow
  by_cases h0 : st = 0
  · have hs0 : status (advance e.data) = 0 := by rw [hst, h0]
    simp only [h0, if_true]
    rcases hrow with h | h | h
    · subst h
      refine ⟨_, dispatch_security_enable env hd e.data e.size (some s) hsize hc, ?_, ?_⟩
      · rw [sm_dispatched, sec_enable_ok _ _ s hs0]; rfl
      · rw [sm_dispatched]; exact sec_enable_ok _ _ s hs0
    · subst h
      refine ⟨_, dispatch_config env hd e.data e.size (some s) hsize hc, ?_, ?_⟩
      · rw [sm_dispatched, config_ok _ _ s hs0]; rfl
      · rw [sm_dispatched]; exact config_ok _ _ s hs0
    · subst h
      refine ⟨_, dispatch_procedure_enable env hd e.data e.size (some s) hsize hc, ?_, ?_⟩
      · rw [sm_dispatched, proc_enable_ok _ _ s hs0]; rfl
      · rw [sm_dispatched]; exact proc_enable_ok _ _ s hs0
  · have hs0 : status (advance e.data) ≠ 0 := by rw [hst]; exact h0
    simp only [h0, if_false]
    rcases hrow with h | h | h
    · subst h
      refine ⟨_, dispatch_security_enable env hd e.data e.size (some s) hsize hc, ?_, ?_⟩
      · rw [sm_dispatched, (sec_enable_failed _ _ s hs0).1]; rfl
      · rw [sm_dispatched]; exact (sec_enable_failed _ _ s hs0).1
    · subst h
      refine ⟨_, dispatch_config env hd e.data e.size (some s) hsize hc, ?_, ?_⟩
      · rw [sm_dispatched, (config_failed _ _ s hs0).1]; rfl
      · rw [sm_dispatched]; exact (config_failed _ _ s hs0).1
    · subst h
      refine ⟨_, dispatch_procedure_enable env hd e.data e.size (some s) hsize hc, ?_, ?_⟩
      · rw [sm_dispatched, (proc_enable_failed _ _ s hs0).1]; rfl
      · rw [sm_dispatched]; exact (proc_enable_failed _ _ s hs0).1

/-- C14 as amended, at a concrete input: a security enable complete event with
status 0 reaches a context in `CS_STOPPED` and moves it to
`CS_WAIT_CONFIG_CMPLT`. -/
theorem completion_applies_from_any_state_witness :
    env0.codes.distinct ∧
    ((0x2E : Nat), CS_WAIT_CONFIG_CMPLT) ∈ [
      (env0.codes.HCI_EVT_LE_CS_SECURITY_ENABLE_COMPLETE, CS_WAIT_CONFIG_CMPLT),
      (env0.codes.HCI_EVT_LE_CS_CONFIG_COMPLETE, CS_WAIT_PROC_CMPLT),
      (env0.codes.HCI_EVT_LE_CS_PROCEDURE_ENABLE_COMPLETE, CS_STARTED)] ∧
    le_meta_event 0x2E 0 { data := mem [0x2E, 0x00], size := 2 } ∧
    ∃ r, rap_handle_hci_events env0 (mem [0x2E, 0x00]) 2 (some (ctx0 CS_STOPPED)) = some r ∧
      cs_get_current_state r.sm = CS_WAIT_CONFIG_CMPLT ∧
      r.sm = some (ctx0 CS_WAIT_CONFIG_CMPLT) :=
  ⟨by decide, by decide, by decide,
    completion_applies_from_any_state env0 (by decide) (ctx0 CS_STOPPED)
      { data := mem [0x2E, 0x00], size := 2 } 0 (0x2E, CS_WAIT_CONFIG_CMPLT)
      (by decide) (by decide)⟩

/-! ## Which completion is followed by a command, and a rejected submission -/

/-- C13, what the code does: when `bt_hci_send` returns 0 for the
set-default-settings command, handling the remote capabilities complete event
with status 0 reports "Failed to send default settings cmd" and then continues
as on success: the context ends in `CS_INIT`, not in `CS_STOPPED`. -/
theorem rejected_submission_ends_in_init (env : Env) (s : cs_state_machine_t)
    (e : hci_event)
    (he : le_meta_event env.codes.HCI_EVT_LE_CS_READ_RMT_SUPP_CAP_COMPLETE 0 e)
    (hrej : ∀ hci cp, env.bt_hci_send hci cp = 0) :
    ∃ r, rap_handle_hci_events env e.data e.size (some s) = some r ∧
      Effect.error_failed_to_send_default_settings_cmd ∈ r.out ∧
      cs_get_current_state r.sm = CS_INIT ∧
      cs_get_current_state r.sm ≠ CS_STOPPED := by
  obtain ⟨hsize, hc, hst⟩ := he
  have h1 : (ev_of_data (advance e.data)).status = 0 := hst
  refine ⟨dispatched opcode_name_t.HCI_EVT_LE_CS_READ_RMT_SUPP_CAP_COMPLETE
    (read_u8 e.data 0)
    { sm := (cs_set_state (some s) CS_INIT).sm
      out := [Effect.DBG_remote_capabilities_complete 0] ++
        rap_send_hci_def_settings_command env s.hci (ev_of_data (advance e.data)) ++
        (cs_set_state (some s) CS_INIT).out }, ?_, ?_, ?_, ?_⟩
  · rw [dispatch_read_rmt_supp_cap env e.data e.size (some s) hsize hc]
    simp only [rap_rd_rmt_supp_cap_cmplt_evt, h1, if_true, Option.map_some']
  · simp only [dispatched, rap_send_hci_def_settings_command, hrej, if_true]
    simp
  · rw [sm_dispatched, cs_set_state_sm]; rfl
  · rw [sm_dispatched, cs_set_state_sm]; simp [cs_get_current_state]

/-- C13 at the failing input: a transport that rejects the command, a context in
`CS_UNSPECIFIED`, remote capabilities complete with status 0 and handle
0x0040. -/
theorem rejected_submission_ends_in_init_witness :
    le_meta_event env_reject.codes.HCI_EVT_LE_CS_READ_RMT_SUPP_CAP_COMPLETE 0
      { data := mem [0x2C, 0x00, 0x40, 0x00], size := 4 } ∧
    (∀ hci cp, env_reject.bt_hci_send hci cp = 0) ∧
    ∃ r, rap_handle_hci_events env_reject (mem [0x2C, 0x00, 0x40, 0x00]) 4
        (some (ctx0 CS_UNSPECIFIED)) = some r ∧
      Effect.error_failed_to_send_default_settings_cmd ∈ r.out ∧
      cs_get_current_state r.sm = CS_INIT ∧
      cs_get_current_state r.sm ≠ CS_STOPPED :=
  ⟨by decide, fun _ _ => rfl,
    rejected_submission_ends_in_init env_reject (ctx0 CS_UNSPECIFIED)
      { data := mem [0x2C, 0x00, 0x40, 0x00], size := 4 } (by decide) (fun _ _ => rfl)⟩

/-! ## The completion of the set-default-settings command, null contexts, results -/

/-- C15, what the code does: `rap_send_hci_def_settings_command` registers
`rap_def_settings_done_cb` with `NULL` as `user_data`, so the completion of the
command, whatever its status, reaches `cs_set_state` with a null pointer: it
reports "State machine not initialized" and the link's context stays as it
was, in whatever state it was. -/
theorem default_settings_completion_misses_context (env : Env) (hci : Nat)
    (ev : hci_evt_le_cs_read_rmt_supp_cap_complete) (data : Nat → Nat) (size : Nat)
    (s : cs_state_machine_t) :
    ∃ u, registered_user_data (rap_send_hci_def_settings_command env hci ev) = some u ∧
      u = user_data_t.NULL ∧
      (on_complete u data size (some s)).sm = some s ∧
      Effect.error_state_machine_not_initialized ∈ (on_complete u data size (some s)).out := by
  refine ⟨user_data_t.NULL, rfl, rfl, rfl, ?_⟩
  simp only [on_complete, rap_def_settings_done_cb, cs_set_state]
  split_ifs <;> simp

/-- C17, what the code does: for a context in `CS_STARTED`, a subevent result
continue event with status 0 followed by a subevent result event with status 0
are both handled, the context stays as it was, and all that happens is the entry
`DBG`, the handler's `DBG` with the payload length, and the closing `DBG` of each
call.  No action takes a payload byte: nothing is stored and nothing is handed to
a consumer. -/
theorem subevent_results_are_only_logged (env : Env) (hd : env.codes.distinct)
    (s : cs_state_machine_t) (ec er : hci_event)
    (hs : s.current_state = CS_STARTED)
    (hec : le_meta_event env.codes.HCI_EVT_LE_CS_SUBEVENT_RESULT_CONTINUE 0 ec)
    (her : le_meta_event env.codes.HCI_EVT_LE_CS_SUBEVENT_RESULT 0 er) :
    ∃ r1 r2, rap_handle_hci_events env ec.data ec.size (some s) = some r1 ∧
      rap_handle_hci_events env er.data er.size r1.sm = some r2 ∧
      r2.sm = some s ∧
      cs_get_current_state r2.sm = CS_STARTED ∧
      r1.out = [Effect.DBG_rap_handle_hci_events,
        Effect.DBG_subevent_result_continue ((ec.size - 1) % 256),
        Effect.DBG_received_event opcode_name_t.HCI_EVT_LE_CS_SUBEVENT_RESULT_CONTINUE
          env.codes.HCI_EVT_LE_CS_SUBEVENT_RESULT_CONTINUE] ∧
      r2.out = [Effect.DBG_rap_handle_hci_events,
        Effect.DBG_subevent_result ((er.size - 1) % 256),
        Effect.DBG_received_event opcode_name_t.HCI_EVT_LE_CS_SUBEVENT_RESULT
          env.codes.HCI_EVT_LE_CS_SUBEVENT_RESULT] := by
  obtain ⟨hsc, hcc, hstc⟩ := hec
  obtain ⟨hsr, hcr, hstr⟩ := her
  have e1 : rap_cs_subevt_result_cont_evt (advance ec.data) ((ec.size - 1) % 256) (some s) =
      { sm := some s, out := [Effect.DBG_subevent_result_continue ((ec.size - 1) % 256)] } := by
    simp only [rap_cs_subevt_result_cont_evt, hstc, ne_eq, not_true_eq_false, if_false]
  have e2 : rap_cs_subevt_result_evt (advance er.data) ((er.size - 1) % 256) (some s) =
      { sm := some s, out := [Effect.DBG_subevent_result ((er.size - 1) % 256)] } := by
    simp only [rap_cs_subevt_result_evt, hstr, ne_eq, not_true_eq_false, if_false]
  refine ⟨dispatched opcode_name_t.HCI_EVT_LE_CS_SUBEVENT_RESULT_CONTINUE (read_u8 ec.data 0)
      (rap_cs_subevt_result_cont_evt (advance ec.data) ((ec.size - 1) % 256) (some s)),
    dispatched opcode_name_t.HCI_EVT_LE_CS_SUBEVENT_RESULT (read_u8 er.data 0)
      (rap_cs_subevt_result_evt (advance er.data) ((er.size - 1) % 256) (some s)),
    dispatch_subevent_result_continue env hd ec.data ec.size (some s) hsc hcc,
    ?_, ?_, ?_, ?_, ?_⟩
  · rw [sm_dispatched, e1]
    exact dispatch_subevent_result env hd er.data er.size (some s) hsr hcr
  · rw [sm_dispatched, e2]
  · rw [sm_dispatched, e2]; exact hs
  · rw [e1, hcc]; rfl
  · rw [e2, hcr]; rfl

/-- C17 at the failing input: in `CS_STARTED`, the bytes 32 00 A1 A2 (continue,
status 0, A = A1 A2) and then 31 00 B1 (result, status 0, B = B1). -/
theorem subevent_results_are_only_logged_witness :
    env0.codes.distinct ∧
    (ctx0 CS_STARTED).current_state = CS_STARTED ∧
    le_meta_event env0.codes.HCI_EVT_LE_CS_SUBEVENT_RESULT_CONTINUE 0
      { data := mem [0x32, 0x00, 0xA1, 0xA2], size := 4 } ∧
    le_meta_event env0.codes.HCI_EVT_LE_CS_SUBEVENT_RESULT 0
      { data := mem [0x31, 0x00, 0xB1], size := 3 } ∧
    ∃ r1 r2, rap_handle_hci_events env0 (mem [0x32, 0x00, 0xA1, 0xA2]) 4
        (some (ctx0 CS_STARTED)) = some r1 ∧
      rap_handle_hci_events env0 (mem [0x31, 0x00, 0xB1]) 3 r1.sm = some r2 ∧
      r2.sm = some (ctx0 CS_STARTED) ∧
      cs_get_current_state r2.sm = CS_STARTED ∧
      r1.out = [Effect.DBG_rap_handle_hci_events,
        Effect.DBG_subevent_result_continue 3,
        Effect.DBG_received_event opcode_name_t.HCI_EVT_LE_CS_SUBEVENT_RESULT_CONTINUE
          0x32] ∧
      r2.out = [Effect.DBG_rap_handle_hci_events,
        Effect.DBG_subevent_result 2,
        Effect.DBG_received_event opcode_name_t.HCI_EVT_LE_CS_SUBEVENT_RESULT 0x31] :=
  ⟨by decide, rfl, by decide, by decide,
    subevent_results_are_only_logged env0 (by decide) (ctx0 CS_STARTED)
      { data := mem [0x32, 0x00, 0xA1, 0xA2], size := 4 }
      { data := mem [0x31, 0x00, 0xB1], size := 3 } rfl (by decide) (by decide)⟩

end RapHci
